import Mathlib

/-!
Verification development for the Apple Health export ingestion backend
(`backend/app/services/xml_parser.py`, `backend/app/services/dedup.py`,
`backend/app/api/ingestion.py`).

Shallow embedding conventions: Python floats are modelled as rationals
(the properties under scrutiny concern which conversion factor is applied
and `None` propagation, not IEEE rounding); Python strings are Lean
strings, manipulated through their character lists; fallible operations
return `Option` / `Except`; the async pipeline is modelled as explicit
state passing with the shared cancellation flag abstracted as a schedule.
-/

namespace Health

set_option maxRecDepth 40000

/-- Characters treated as whitespace by Python's `str.strip()` and the regex
class `\s` (the ASCII fragment; the attribute strings in scope are ASCII). -/
def pySpace (c : Char) : Bool :=
  c = ' ' || c = '\t' || c = '\n' || c = '\r' || c = '\x0b' || c = '\x0c'

/-- Python `str.strip()` on a character list: drop whitespace at both ends. -/
def stripChars (cs : List Char) : List Char :=
  ((cs.dropWhile pySpace).reverse.dropWhile pySpace).reverse

/-- Python `str.strip()`. -/
def pyStrip (s : String) : String := String.mk (stripChars s.data)

/-- Python `str.lower()` restricted to ASCII letters (the unit strings the
converters inspect are ASCII). -/
def asciiLower (c : Char) : Char :=
  if 'A' ≤ c ∧ c ≤ 'Z' then Char.ofNat (c.toNat + 32) else c

/-- Python `str.lower()` on a Lean string (ASCII fragment). -/
def pyLower (s : String) : String := String.mk (s.data.map asciiLower)

/-- Prefix test on code-point lists (first argument is the prefix). -/
def charsBeginWith : List Char → List Char → Bool
  | [], _ => true
  | _ :: _, [] => false
  | a :: as, b :: bs => a = b && charsBeginWith as bs

/-- Python `str.startswith`, by code points (Lean's byte-position based
`String.startsWith` does not reduce definitionally; Python strings are
code-point sequences, so the list form is the faithful embedding). -/
def pyBeginsWith (s pre : String) : Bool := charsBeginWith pre.data s.data

/-- Python `str.endswith`, by code points. -/
def pyEndsWith (s suf : String) : Bool :=
  charsBeginWith suf.data.reverse s.data.reverse

/-- Python slicing `s[n:]`, by code points. -/
def strDrop (s : String) (n : Nat) : String := String.mk (s.data.drop n)

/-- Source constant `_KCAL_TO_KJ = 4.184`. -/
def KCAL_TO_KJ : ℚ := 4184 / 1000

/-- Source constant `_KM_TO_M = 1_000.0`. -/
def KM_TO_M : ℚ := 1000

/-- Source constant `_MI_TO_M = 1_609.344`. -/
def MI_TO_M : ℚ := 1609344 / 1000

/-- Source constant `_MIN_TO_SEC = 60.0`. -/
def MIN_TO_SEC : ℚ := 60

/-- Source constant `_HR_TO_SEC = 3_600.0`. -/
def HR_TO_SEC : ℚ := 3600

/-- Embedding of `_convert_to_kj` (xml_parser.py): convert an energy value to
kilojoules; `None` propagates, unknown units fall through to the raw value. -/
def convert_to_kj (value : Option ℚ) (unit : Option String) : Option ℚ :=
  match value, unit with
  | none, _ => none
  | some _, none => none
  | some v, some u =>
    let ul := pyLower (pyStrip u)
    if ul = "kcal" ∨ ul = "cal" then some (v * KCAL_TO_KJ)
    else if ul = "kj" then some v
    else some v

/-- Embedding of `_convert_to_meters` (xml_parser.py). -/
def convert_to_meters (value : Option ℚ) (unit : Option String) : Option ℚ :=
  match value, unit with
  | none, _ => none
  | some _, none => none
  | some v, some u =>
    let ul := pyLower (pyStrip u)
    if ul = "km" then some (v * KM_TO_M)
    else if ul = "mi" ∨ ul = "mile" ∨ ul = "miles" then some (v * MI_TO_M)
    else if ul = "m" ∨ ul = "meter" ∨ ul = "meters" then some v
    else some v

/-- Embedding of `_convert_duration_to_seconds` (xml_parser.py). -/
def convert_duration_to_seconds (value : Option ℚ) (unit : Option String) :
    Option ℚ :=
  match value, unit with
  | none, _ => none
  | some _, none => none
  | some v, some u =>
    let ul := pyLower (pyStrip u)
    if ul = "min" ∨ ul = "minute" ∨ ul = "minutes" then some (v * MIN_TO_SEC)
    else if ul = "hr" ∨ ul = "hour" ∨ ul = "hours" then some (v * HR_TO_SEC)
    else if ul = "s" ∨ ul = "sec" ∨ ul = "second" ∨ ul = "seconds" then some v
    else some v

/-- Digit test, the regex class `\d` (ASCII). -/
def isDigit (c : Char) : Bool := '0' ≤ c && c ≤ '9'

/-- Value of a list of decimal digit characters. -/
def digitsToNat (cs : List Char) : Nat :=
  cs.foldl (fun a c => a * 10 + (c.toNat - 48)) 0

/-- Match exactly `n` digits at the front, returning their value and the rest
(the regex fragment `\d{n}`). -/
def splitDigits (n : Nat) (cs : List Char) : Option (Nat × List Char) :=
  let pre := cs.take n
  if pre.length = n ∧ pre.all isDigit then some (digitsToNat pre, cs.drop n) else none

/-- Match one literal character at the front. -/
def expectChar (c : Char) (cs : List Char) : Option (List Char) :=
  match cs with
  | x :: rest => if x = c then some rest else none
  | [] => none

/-- Match one or more whitespace characters at the front (the regex `\s+`). -/
def skipSpaces1 (cs : List Char) : Option (List Char) :=
  match cs with
  | x :: rest => if pySpace x then some (rest.dropWhile pySpace) else none
  | [] => none

/-- Match `\d{n1} sep \d{n2} sep \d{n3}`, as used for both the date and the
time part of `_APPLE_DATE_RE`. -/
def matchTriple (sep : Char) (n1 n2 n3 : Nat) (cs : List Char) :
    Option ((Nat × Nat × Nat) × List Char) :=
  match splitDigits n1 cs with
  | none => none
  | some (a, r1) =>
    match expectChar sep r1 with
    | none => none
    | some r2 =>
      match splitDigits n2 r2 with
      | none => none
      | some (b, r3) =>
        match expectChar sep r3 with
        | none => none
        | some r4 =>
          match splitDigits n3 r4 with
          | none => none
          | some (c, r5) => some ((a, b, c), r5)

/-- Match the UTC-offset group `[+-]\d{4}` of `_APPLE_DATE_RE`, returning the
signed offset in minutes (`datetime.fromisoformat` normalises `±HHMM` to a
single signed minute count). -/
def matchOffset (cs : List Char) : Option (Int × List Char) :=
  match cs with
  | '+' :: rest =>
    (match splitDigits 2 rest with
     | none => none
     | some (oh, r1) =>
       match splitDigits 2 r1 with
       | none => none
       | some (om, r2) => some ((oh * 60 + om : Nat), r2))
  | '-' :: rest =>
    (match splitDigits 2 rest with
     | none => none
     | some (oh, r1) =>
       match splitDigits 2 r1 with
       | none => none
       | some (om, r2) => some (-((oh * 60 + om : Nat) : Int), r2))
  | _ => none

/-- Prefix-match (Python `re.match`) of the source regex `_APPLE_DATE_RE`,
`(\d{4}-\d{2}-\d{2})\s+(\d{2}:\d{2}:\d{2})\s+([+-]\d{4})`; trailing input is
allowed, as the regex is unanchored at the end. -/
def matchRaw (cs : List Char) :
    Option ((Nat × Nat × Nat) × (Nat × Nat × Nat) × Int) :=
  match matchTriple '-' 4 2 2 cs with
  | none => none
  | some (ymd, r1) =>
    match skipSpaces1 r1 with
    | none => none
    | some r2 =>
      match matchTriple ':' 2 2 2 r2 with
      | none => none
      | some (hms, r3) =>
        match skipSpaces1 r3 with
        | none => none
        | some r4 =>
          match matchOffset r4 with
          | none => none
          | some (off, _) => some (ymd, hms, off)

/-- Timezone-aware instant as produced by `datetime.fromisoformat` on the
recombined `_APPLE_DATE_RE` groups: calendar fields plus a signed UTC offset
in minutes. -/
structure AppleDateTime where
  year : Nat
  month : Nat
  day : Nat
  hour : Nat
  minute : Nat
  second : Nat
  offsetMinutes : Int
deriving DecidableEq, Repr

/-- Gregorian leap-year rule used by `datetime`'s calendar validation. -/
def isLeap (y : Nat) : Bool := (y % 4 = 0 && y % 100 ≠ 0) || y % 400 = 0

/-- Days in a month, per `datetime`'s calendar validation. -/
def daysInMonth (y m : Nat) : Nat :=
  if m = 2 then (if isLeap y then 29 else 28)
  else if m = 4 ∨ m = 6 ∨ m = 9 ∨ m = 11 then 30
  else 31

/-- Validity checks `datetime.fromisoformat` applies to a string already of
the regex's shape: month 1-12, day in range for the month, hour 0-23,
minute/second 0-59, absolute offset under 24 hours (offset minutes beyond 59
are normalised, not rejected). -/
def validateDate (raw : (Nat × Nat × Nat) × (Nat × Nat × Nat) × Int) :
    Option AppleDateTime :=
  match raw with
  | ((y, mo, d), (hh, mi, ss), off) =>
    if 1 ≤ y ∧ 1 ≤ mo ∧ mo ≤ 12 ∧ 1 ≤ d ∧ d ≤ daysInMonth y mo ∧
        hh ≤ 23 ∧ mi ≤ 59 ∧ ss ≤ 59 ∧ off.natAbs < 1440 then
      some ⟨y, mo, d, hh, mi, ss, off⟩
    else none

/-- Embedding of `_parse_apple_date` (xml_parser.py): `None`/empty input gives
`None`; otherwise strip, prefix-match `_APPLE_DATE_RE`, and validate the
recombined ISO string with `datetime.fromisoformat`. -/
def parse_apple_date (dateStr : Option String) : Option AppleDateTime :=
  match dateStr with
  | none => none
  | some s =>
    if s = "" then none
    else
      match matchRaw (stripChars s.data) with
      | none => none
      | some raw => validateDate raw

/-- Two-digit zero padding, as in `datetime.isoformat` output. -/
def pad2 (n : Nat) : String := if n < 10 then "0" ++ toString n else toString n

/-- Four-digit zero padding for the year in `datetime.isoformat` output. -/
def pad4 (n : Nat) : String :=
  if n < 10 then "000" ++ toString n
  else if n < 100 then "00" ++ toString n
  else if n < 1000 then "0" ++ toString n
  else toString n

/-- Embedding of `datetime.isoformat()` for instants produced by
`_parse_apple_date`: whole seconds (the regex admits no fractional part) and
an offset rendered `±HH:MM`. -/
def isoformat (t : AppleDateTime) : String :=
  pad4 t.year ++ "-" ++ pad2 t.month ++ "-" ++ pad2 t.day ++ "T" ++
  pad2 t.hour ++ ":" ++ pad2 t.minute ++ ":" ++ pad2 t.second ++
  (if t.offsetMinutes < 0 then "-" else "+") ++
  pad2 (t.offsetMinutes.natAbs / 60) ++ ":" ++ pad2 (t.offsetMinutes.natAbs % 60)

/-- Embedding of Python `date.fromisoformat` on a `dateComponents` string
(`YYYY-MM-DD`, the form the exports carry), used by
`_parse_apple_date_only`. -/
structure AppleDate where
  year : Nat
  month : Nat
  day : Nat
deriving DecidableEq, Repr

/-- Embedding of `_parse_apple_date_only` (xml_parser.py): strip, then parse a
full-string `YYYY-MM-DD` with calendar validation. -/
def parse_apple_date_only (dateStr : Option String) : Option AppleDate :=
  match dateStr with
  | none => none
  | some s =>
    if s = "" then none
    else
      match matchTriple '-' 4 2 2 (stripChars s.data) with
      | some ((y, mo, d), []) =>
        if 1 ≤ y ∧ 1 ≤ mo ∧ mo ≤ 12 ∧ 1 ≤ d ∧ d ≤ daysInMonth y mo then
          some ⟨y, mo, d⟩
        else none
      | _ => none

/-- Mantissa of a Python float literal: digits, optionally with a decimal
point on either side (`12`, `12.`, `12.5`, `.5`); at least one digit. -/
def parseMantissa (cs : List Char) : Option (ℚ × List Char) :=
  let ip := cs.takeWhile isDigit
  let r1 := cs.dropWhile isDigit
  match r1 with
  | '.' :: r2 =>
    let fp := r2.takeWhile isDigit
    let r3 := r2.dropWhile isDigit
    if ip.isEmpty ∧ fp.isEmpty then none
    else some ((digitsToNat ip : ℚ) + (digitsToNat fp : ℚ) / (10 ^ fp.length), r3)
  | _ => if ip.isEmpty then none else some ((digitsToNat ip : ℚ), r1)

/-- Optional exponent suffix `[eE][+-]?digits` of a Python float literal,
which must consume the remaining input. -/
def parseExponent (cs : List Char) : Option Int :=
  match cs with
  | [] => some 0
  | e :: r1 =>
    if e = 'e' ∨ e = 'E' then
      let (es, r2) : Int × List Char :=
        match r1 with
        | '+' :: r => (1, r)
        | '-' :: r => (-1, r)
        | _ => (1, r1)
      let ds := r2.takeWhile isDigit
      let r3 := r2.dropWhile isDigit
      if ds.isEmpty ∨ ¬r3.isEmpty then none else some (es * (digitsToNat ds : Nat))
    else none

/-- Model of CPython `float(str)` restricted to finite decimal literals (the
form measurement attributes take): strip, optional sign, decimal mantissa,
optional exponent. The exact rational value is kept; `inf`/`nan` spellings
are outside the modelled domain. -/
def parseFloatChars (cs0 : List Char) : Option ℚ :=
  let cs := stripChars cs0
  let (sign, cs1) : ℚ × List Char :=
    match cs with
    | '+' :: r => (1, r)
    | '-' :: r => (-1, r)
    | _ => (1, cs)
  match parseMantissa cs1 with
  | none => none
  | some (m, rest) =>
    match parseExponent rest with
    | none => none
    | some e => some (sign * m * (10 : ℚ) ^ e)

/-- Embedding of `_safe_float` (xml_parser.py): `float(value)` with `None` on
missing input or parse failure. -/
def safe_float (value : Option String) : Option ℚ :=
  match value with
  | none => none
  | some s => parseFloatChars s.data

/-- Embedding of `_safe_int` (xml_parser.py): `int(value)` with `None` on
missing input or parse failure (optional sign, decimal digits). -/
def safe_int (value : Option String) : Option Int :=
  match value with
  | none => none
  | some s =>
    let cs := stripChars s.data
    let (sign, cs1) : Int × List Char :=
      match cs with
      | '+' :: r => (1, r)
      | '-' :: r => (-1, r)
      | _ => (1, cs)
    if cs1 ≠ [] ∧ cs1.all isDigit then some (sign * (digitsToNat cs1 : Nat))
    else none

/-- Source constant `_QUANTITY_PREFIX` (xml_parser.py). -/
def hkQuantityType : String := "HKQuantityTypeIdentifier"

/-- Source constant `_CATEGORY_PREFIX` (xml_parser.py). -/
def hkCategoryType : String := "HKCategoryTypeIdentifier"

/-- Source constant `_WORKOUT_PREFIX` (xml_parser.py). -/
def hkWorkoutActivity : String := "HKWorkoutActivityType"

/-- Embedding of `_clean_type_name` (xml_parser.py): strip the HK vendor
prefix from a type identifier when present. -/
def clean_type_name (rawType : String) (pre : String) : String :=
  if pyBeginsWith rawType pre then strDrop rawType pre.length else rawType

/-- CamelCase spacing, the regex substitution
`re.sub(r"(?<=[a-z])(?=[A-Z])", " ", s)`: a space is inserted at every
boundary where an ASCII lowercase letter is followed by an ASCII uppercase
letter. -/
def camelSpace : List Char → List Char
  | [] => []
  | [c] => [c]
  | a :: b :: rest =>
    if ('a' ≤ a ∧ a ≤ 'z') ∧ ('A' ≤ b ∧ b ≤ 'Z') then
      a :: ' ' :: camelSpace (b :: rest)
    else a :: camelSpace (b :: rest)

/-- Embedding of `_clean_category_value` (xml_parser.py): empty input gives
the empty string; otherwise drop a leading `HKCategoryValue`, space the
CamelCase boundaries, and strip. -/
def clean_category_value (rawValue : String) : String :=
  if rawValue = "" then ""
  else
    let cleaned :=
      if pyBeginsWith rawValue "HKCategoryValue" then
        strDrop rawValue ("HKCategoryValue".length)
      else rawValue
    String.mk (stripChars (camelSpace cleaned.data))

/-- Truncation to a 32-bit machine word. -/
def w32 (n : Nat) : Nat := n % 4294967296

/-- Left rotation of a 32-bit word by `k` bits. -/
def rotl32 (k x : Nat) : Nat := w32 ((x <<< k) ||| (x >>> (32 - k)))

/-- SHA-1 message padding: a `0x80` byte, zeros to 56 mod 64, then the bit
length as eight big-endian bytes (RFC 3174, as used by `uuid.uuid5`). -/
def sha1Pad (msg : List Nat) : List Nat :=
  let len := msg.length
  let k := (120 - ((len + 1) % 64)) % 64
  let bitLen := len * 8
  msg ++ [128] ++ List.replicate k 0 ++
    [(bitLen >>> 56) % 256, (bitLen >>> 48) % 256, (bitLen >>> 40) % 256,
     (bitLen >>> 32) % 256, (bitLen >>> 24) % 256, (bitLen >>> 16) % 256,
     (bitLen >>> 8) % 256, bitLen % 256]

/-- Group bytes into big-endian 32-bit words. -/
def toWords : List Nat → List Nat
  | a :: b :: c :: d :: rest => (((a * 256 + b) * 256 + c) * 256 + d) :: toWords rest
  | _ => []

/-- Split a word list into 16-word blocks (fuelled; the fuel is instantiated
with the list length, which always suffices). -/
def chunkWords (fuel : Nat) (ws : List Nat) : List (List Nat) :=
  match fuel, ws with
  | 0, _ => []
  | _, [] => []
  | f + 1, ws => ws.take 16 :: chunkWords f (ws.drop 16)

/-- Message-schedule extension: prepend `n` further words to the reversed
accumulator, each the 1-rotation of the XOR of words 3, 8, 14 and 16 back. -/
def extendLoop : Nat → List Nat → List Nat
  | 0, acc => acc
  | n + 1, acc =>
    let g (k : Nat) : Nat := acc.getD (k - 1) 0
    extendLoop n (rotl32 1 (((g 3) ^^^ (g 8)) ^^^ ((g 14) ^^^ (g 16))) :: acc)

/-- Extend a 16-word block to the 80-word SHA-1 message schedule. -/
def extendTo80 (block : List Nat) : List Nat :=
  (extendLoop 64 block.reverse).reverse

/-- The 80 SHA-1 rounds over the message schedule. -/
def sha1Rounds : List Nat → Nat → (Nat × Nat × Nat × Nat × Nat) →
    Nat × Nat × Nat × Nat × Nat
  | [], _, st => st
  | w :: ws, i, (a, b, c, d, e) =>
    let f :=
      if i < 20 then (b &&& c) ||| ((b ^^^ 4294967295) &&& d)
      else if i < 40 then (b ^^^ c) ^^^ d
      else if i < 60 then ((b &&& c) ||| (b &&& d)) ||| (c &&& d)
      else (b ^^^ c) ^^^ d
    let k :=
      if i < 20 then 1518500249
      else if i < 40 then 1859775393
      else if i < 60 then 2400959708
      else 3395469782
    let temp := w32 (rotl32 5 a + f + e + k + w)
    sha1Rounds ws (i + 1) (temp, a, rotl32 30 b, c, d)

/-- One SHA-1 block compression. -/
def compressBlock (st : Nat × Nat × Nat × Nat × Nat) (block : List Nat) :
    Nat × Nat × Nat × Nat × Nat :=
  match st with
  | (h0, h1, h2, h3, h4) =>
    match sha1Rounds (extendTo80 block) 0 st with
    | (a, b, c, d, e) =>
      (w32 (h0 + a), w32 (h1 + b), w32 (h2 + c), w32 (h3 + d), w32 (h4 + e))

/-- Big-endian bytes of a 32-bit word. -/
def wordBytes (w : Nat) : List Nat :=
  [(w >>> 24) % 256, (w >>> 16) % 256, (w >>> 8) % 256, w % 256]

/-- SHA-1 digest (20 bytes) of a byte sequence. -/
def sha1 (msg : List Nat) : List Nat :=
  let ws := toWords (sha1Pad msg)
  match (chunkWords ws.length ws).foldl compressBlock
      (1732584193, 4023233417, 2562383102, 271733878, 3285377520) with
  | (h0, h1, h2, h3, h4) =>
    wordBytes h0 ++ wordBytes h1 ++ wordBytes h2 ++ wordBytes h3 ++ wordBytes h4

/-- UTF-8 encoding of one code point (Python `str.encode` on each char). -/
def utf8Char (c : Char) : List Nat :=
  let n := c.toNat
  if n < 128 then [n]
  else if n < 2048 then [192 + n / 64, 128 + n % 64]
  else if n < 65536 then [224 + n / 4096, 128 + (n / 64) % 64, 128 + n % 64]
  else [240 + n / 262144, 128 + (n / 4096) % 64, 128 + (n / 64) % 64, 128 + n % 64]

/-- UTF-8 bytes of a string (`name.encode("utf-8")` inside `uuid.uuid5`). -/
def utf8Bytes (s : String) : List Nat :=
  s.data.foldr (fun c acc => utf8Char c ++ acc) []

/-- Embedding of `uuid.uuid5(namespace, name)` (RFC 4122 v5): the first 16
bytes of `sha1(namespace.bytes + name.encode())` with the version nibble set
to 5 and the variant bits set to 10. -/
def uuid5Bytes (ns : List Nat) (name : String) : List Nat :=
  match (sha1 (ns ++ utf8Bytes name)).take 16 with
  | [b0, b1, b2, b3, b4, b5, b6, b7, b8, b9, b10, b11, b12, b13, b14, b15] =>
    [b0, b1, b2, b3, b4, b5, (b6 &&& 15) ||| 80, b7, (b8 &&& 63) ||| 128,
     b9, b10, b11, b12, b13, b14, b15]
  | _ => []

/-- Lowercase hex digit. -/
def hexDigit (n : Nat) : Char :=
  if n < 10 then Char.ofNat (48 + n) else Char.ofNat (87 + n)

/-- Two hex digits of a byte. -/
def byteHex (b : Nat) : List Char := [hexDigit (b / 16), hexDigit (b % 16)]

/-- Hex string of a byte sequence. -/
def bytesHex (bs : List Nat) : String :=
  String.mk (bs.foldr (fun b acc => byteHex b ++ acc) [])

/-- Canonical 8-4-4-4-12 text form of a 16-byte UUID (`str(uuid)`). -/
def uuidHex (bs : List Nat) : String :=
  bytesHex (bs.take 4) ++ "-" ++ bytesHex ((bs.drop 4).take 2) ++ "-" ++
  bytesHex ((bs.drop 6).take 2) ++ "-" ++ bytesHex ((bs.drop 8).take 2) ++ "-" ++
  bytesHex (bs.drop 10)

/-- Source constant `_WORKOUT_NS = uuid.UUID("a1b2c3d4-e5f6-7890-abcd-ef1234567890")`
(xml_parser.py), as its 16 bytes. -/
def WORKOUT_NS : List Nat :=
  [161, 178, 195, 212, 229, 246, 120, 144, 171, 205, 239, 18, 52, 86, 120, 144]

/-- Attribute view of a `<Record>` element (absent attributes are `none`;
`typeAttr` embeds the `type` attribute, renamed because `type` is reserved). -/
structure XmlRecordElem where
  typeAttr : Option String
  startDate : Option String
  endDate : Option String
  value : Option String
  unit : Option String
  sourceName : Option String
  sourceVersion : Option String
  device : Option String
deriving DecidableEq, Repr

/-- Row dict built for a quantitative `<Record>` (the `"health"` arm of
`_process_record_element`). -/
structure HealthRow where
  time : AppleDateTime
  end_time : Option AppleDateTime
  user_id : Nat
  metric_type : String
  value : ℚ
  unit : String
  source_id : Option Nat
  batch_id : String
deriving DecidableEq, Repr

/-- Row dict built for a categorical `<Record>` (the `"category"` arm of
`_process_record_element`). -/
structure CategoryRow where
  time : AppleDateTime
  end_time : Option AppleDateTime
  user_id : Nat
  category_type : String
  value : String
  value_label : String
  source_id : Option Nat
  batch_id : String
deriving DecidableEq, Repr

/-- Tagged result of `_process_record_element`: `("health", dict)` or
`("category", dict)`. -/
inductive RecordResult where
  | health (r : HealthRow)
  | category (r : CategoryRow)
deriving DecidableEq, Repr

/-- Embedding of `_process_record_element` (xml_parser.py). -/
def process_record_element (e : XmlRecordElem) (user_id : Nat)
    (batch_id : String) (source_id : Option Nat) : Option RecordResult :=
  let record_type := e.typeAttr.getD ""
  match parse_apple_date e.startDate with
  | none => none
  | some start =>
    let endT := parse_apple_date e.endDate
    if pyBeginsWith record_type hkQuantityType then
      match safe_float e.value with
      | none => none
      | some raw_value =>
        some (.health
          ⟨start, endT, user_id, clean_type_name record_type hkQuantityType,
           raw_value, e.unit.getD "", source_id, batch_id⟩)
    else if pyBeginsWith record_type hkCategoryType then
      let raw_value := e.value.getD ""
      some (.category
        ⟨start, endT, user_id, clean_type_name record_type hkCategoryType,
         raw_value, clean_category_value raw_value, source_id, batch_id⟩)
    else none

/-- Attribute view of a nested `<Location>` element. -/
structure XmlLocationElem where
  date : Option String
  latitude : Option String
  longitude : Option String
  altitude : Option String
deriving DecidableEq, Repr

/-- Attribute view of a nested `<MetadataEntry>` element. -/
structure XmlMetadataEntry where
  key : Option String
  value : Option String
deriving DecidableEq, Repr

/-- Attribute view of a `<Workout>` element, with its nested `MetadataEntry`
children and `WorkoutRoute > Location` descendants in document order. -/
structure XmlWorkoutElem where
  workoutActivityType : Option String
  startDate : Option String
  endDate : Option String
  duration : Option String
  durationUnit : Option String
  totalDistance : Option String
  totalDistanceUnit : Option String
  totalEnergyBurned : Option String
  totalEnergyBurnedUnit : Option String
  sourceName : Option String
  sourceVersion : Option String
  device : Option String
  metadataEntries : List XmlMetadataEntry
  locations : List XmlLocationElem
deriving DecidableEq, Repr

/-- Workout row dict built by `_process_workout_element`; the deterministic
id is the 16 UUID bytes. -/
structure WorkoutRow where
  id : List Nat
  user_id : Nat
  time : Option AppleDateTime
  end_time : Option AppleDateTime
  activity_type : String
  duration_sec : Option ℚ
  total_distance_m : Option ℚ
  total_energy_kj : Option ℚ
  source_id : Option Nat
  batch_id : String
  metadata : Option (List (String × String))
deriving DecidableEq, Repr

/-- Route point row dict built by `_process_workout_element`. -/
structure RoutePointRow where
  time : AppleDateTime
  workout_id : List Nat
  latitude : ℚ
  longitude : ℚ
  altitude_m : Option ℚ
deriving DecidableEq, Repr

/-- Python dict assignment `m[k] = v`: replace in place if the key exists,
else append. -/
def dictInsert (m : List (String × String)) (k v : String) :
    List (String × String) :=
  if m.any (fun p => p.1 = k) then m.map (fun p => if p.1 = k then (k, v) else p)
  else m ++ [(k, v)]

/-- The metadata dict collected from `MetadataEntry` children: entries with a
truthy key land as `metadata[key] = val or ""`. -/
def metadataMap (entries : List XmlMetadataEntry) : List (String × String) :=
  entries.foldl
    (fun acc me =>
      match me.key with
      | none => acc
      | some k => if k = "" then acc else dictInsert acc k (me.value.getD ""))
    []

/-- The dedup key string `f"{user_id}:{start.isoformat() if start else ''}:{activity_type}"`
fed to `uuid.uuid5` in `_process_workout_element`. -/
def mkDedupKey (user_id : Nat) (start : Option AppleDateTime)
    (activity_type : String) : String :=
  toString user_id ++ ":" ++
    (match start with | some t => isoformat t | none => "") ++ ":" ++ activity_type

/-- Embedding of `_process_workout_element` (xml_parser.py). -/
def process_workout_element (e : XmlWorkoutElem) (user_id : Nat)
    (batch_id : String) (source_id : Option Nat) :
    WorkoutRow × List RoutePointRow :=
  let start := parse_apple_date e.startDate
  let endT := parse_apple_date e.endDate
  let activity_raw := e.workoutActivityType.getD ""
  let activity_type := clean_type_name activity_raw hkWorkoutActivity
  let workout_id := uuid5Bytes WORKOUT_NS (mkDedupKey user_id start activity_type)
  let duration_sec :=
    convert_duration_to_seconds (safe_float e.duration) (some (e.durationUnit.getD "min"))
  let total_distance_m :=
    convert_to_meters (safe_float e.totalDistance) (some (e.totalDistanceUnit.getD "km"))
  let total_energy_kj :=
    convert_to_kj (safe_float e.totalEnergyBurned) (some (e.totalEnergyBurnedUnit.getD "kcal"))
  let metadata := metadataMap e.metadataEntries
  let workout : WorkoutRow :=
    ⟨workout_id, user_id, start, endT, activity_type, duration_sec,
     total_distance_m, total_energy_kj, source_id, batch_id,
     if metadata = [] then none else some metadata⟩
  let route_points := e.locations.filterMap (fun loc =>
    match parse_apple_date loc.date, safe_float loc.latitude, safe_float loc.longitude with
    | some pt, some lat, some lon =>
      some ⟨pt, workout_id, lat, lon, safe_float loc.altitude⟩
    | _, _, _ => none)
  (workout, route_points)

/-- Attribute view of an `<ActivitySummary>` element. -/
structure XmlActivityElem where
  dateComponents : Option String
  activeEnergyBurned : Option String
  activeEnergyBurnedUnit : Option String
  activeEnergyBurnedGoal : Option String
  appleExerciseTime : Option String
  appleExerciseTimeGoal : Option String
  appleStandHours : Option String
  appleStandHoursGoal : Option String
  sourceName : Option String
  sourceVersion : Option String
  device : Option String
deriving DecidableEq, Repr

/-- Activity summary row dict built by `_process_activity_summary_element`. -/
structure ActivityRow where
  date : AppleDate
  user_id : Nat
  active_energy_burned_kj : Option ℚ
  active_energy_goal_kj : Option ℚ
  exercise_minutes : Option ℚ
  exercise_goal_minutes : Option ℚ
  stand_hours : Option Int
  stand_goal_hours : Option Int
deriving DecidableEq, Repr

/-- Embedding of `_process_activity_summary_element` (xml_parser.py). -/
def process_activity_summary_element (e : XmlActivityElem) (user_id : Nat) :
    Option ActivityRow :=
  match parse_apple_date_only e.dateComponents with
  | none => none
  | some d =>
    let energy_unit := e.activeEnergyBurnedUnit.getD "kcal"
    some
      ⟨d, user_id,
       convert_to_kj (safe_float e.activeEnergyBurned) (some energy_unit),
       convert_to_kj (safe_float e.activeEnergyBurnedGoal) (some energy_unit),
       safe_float e.appleExerciseTime,
       safe_float e.appleExerciseTimeGoal,
       safe_int e.appleStandHours,
       safe_int e.appleStandHoursGoal⟩

/-- Source constant `BATCH_SIZE = 25_000` (xml_parser.py). -/
def BATCH_SIZE : Nat := 25000

/-- Embedding of the `BatchPayload` dataclass: one self-contained batch with
independent sub-lists per entity kind. -/
structure BatchPayload where
  health : List HealthRow
  category : List CategoryRow
  workouts : List WorkoutRow
  route_points : List RoutePointRow
  activity : List ActivityRow
deriving DecidableEq, Repr

/-- The freshly constructed `BatchPayload()`. -/
def emptyBatch : BatchPayload := ⟨[], [], [], [], []⟩

/-- Embedding of `BatchPayload.__len__`: total records across all five
sub-lists. -/
def payloadLen (b : BatchPayload) : Nat :=
  b.health.length + b.category.length + b.workouts.length +
    b.route_points.length + b.activity.length

/-- One streamed element with a recognised tag, as delivered by
`iterparse(..., tag=("Record", "Workout", "ActivitySummary"))`. -/
inductive ParsedElem where
  | record (e : XmlRecordElem)
  | workout (e : XmlWorkoutElem)
  | activity (e : XmlActivityElem)
deriving DecidableEq, Repr

/-- State of the `_producer` loop: the accumulating batch, the counters, the
batches enqueued so far (the bounded queue's receive order), and whether the
loop has exited via the post-enqueue cancellation `break`. -/
structure ProducerState where
  batch : BatchPayload
  total_count : Nat
  health_count : Nat
  category_count : Nat
  workout_count : Nat
  route_point_count : Nat
  activity_count : Nat
  skipped_workouts : Nat
  enqueued : List BatchPayload
  stopped : Bool
deriving DecidableEq, Repr

/-- The initial `_producer` state. -/
def initialProducerState : ProducerState :=
  ⟨emptyBatch, 0, 0, 0, 0, 0, 0, 0, [], false⟩

/-- The per-tag dispatch of one loop iteration of `_producer` (xml_parser.py
lines 519-555): classify the element and append its rows to the current
batch, or count a skipped workout. `resolveSrc` abstracts the
`_DataSourceCache` lookup / transactional get-or-create on
`(sourceName, sourceVersion)`. -/
def applyElem (user_id : Nat) (batch_id : String)
    (resolveSrc : Option String → Option String → Option Nat)
    (st : ProducerState) (e : ParsedElem) : ProducerState :=
  match e with
  | .record re =>
    match process_record_element re user_id batch_id
        (resolveSrc re.sourceName re.sourceVersion) with
    | none => st
    | some (.health r) =>
      { st with batch := { st.batch with health := st.batch.health ++ [r] },
                health_count := st.health_count + 1,
                total_count := st.total_count + 1 }
    | some (.category r) =>
      { st with batch := { st.batch with category := st.batch.category ++ [r] },
                category_count := st.category_count + 1,
                total_count := st.total_count + 1 }
  | .workout we =>
    let wp := process_workout_element we user_id batch_id
        (resolveSrc we.sourceName we.sourceVersion)
    if wp.1.time = none then
      { st with skipped_workouts := st.skipped_workouts + 1 }
    else
      { st with batch := { st.batch with
                  workouts := st.batch.workouts ++ [wp.1],
                  route_points := st.batch.route_points ++ wp.2 },
                workout_count := st.workout_count + 1,
                route_point_count := st.route_point_count + wp.2.length,
                total_count := st.total_count + 1 }
  | .activity ae =>
    match process_activity_summary_element ae user_id with
    | none => st
    | some r =>
      { st with batch := { st.batch with activity := st.batch.activity ++ [r] },
                activity_count := st.activity_count + 1,
                total_count := st.total_count + 1 }

/-- The end-of-iteration flush check of `_producer` (lines 561-566): when the
batch has reached `BATCH_SIZE` records it is enqueued and replaced by a fresh
one, and a set cancellation flag then breaks the loop. `cancelNow` is the
value of the shared `cancelled[0]` flag at this read. -/
def flushCheck (cancelNow : Bool) (st1 : ProducerState) : ProducerState :=
  if BATCH_SIZE ≤ payloadLen st1.batch then
    let st2 := { st1 with enqueued := st1.enqueued ++ [st1.batch],
                          batch := emptyBatch }
    if cancelNow then { st2 with stopped := true } else st2
  else st1

/-- One full iteration of the `_producer` loop body; once the loop has broken
(`stopped`), further elements are not consumed. -/
def producerStep (user_id : Nat) (batch_id : String)
    (resolveSrc : Option String → Option String → Option Nat)
    (cancelNow : Bool) (st : ProducerState) (e : ParsedElem) : ProducerState :=
  if st.stopped then st
  else flushCheck cancelNow (applyElem user_id batch_id resolveSrc st e)

/-- The `_producer` for-loop over the streamed elements. `cancelSched i` is
the value the shared `cancelled[0]` flag holds when iteration `i` reads it
(the progress monitor writes it concurrently; it is only ever set to true). -/
def producerLoop (user_id : Nat) (batch_id : String)
    (resolveSrc : Option String → Option String → Option Nat)
    (cancelSched : Nat → Bool) : Nat → ProducerState → List ParsedElem →
    ProducerState
  | _, st, [] => st
  | i, st, e :: rest =>
    producerLoop user_id batch_id resolveSrc cancelSched (i + 1)
      (producerStep user_id batch_id resolveSrc (cancelSched i) st e) rest

/-- Embedding of `_producer` (xml_parser.py): run the loop from the empty
state, then enqueue the trailing partial batch when it is nonempty and the
cancellation flag is unset (a loop broken by cancellation saw the flag true,
and the flag is never cleared, so `stopped` implies it is still true). -/
def producerRun (user_id : Nat) (batch_id : String)
    (resolveSrc : Option String → Option String → Option Nat)
    (cancelSched : Nat → Bool) (elems : List ParsedElem) : ProducerState :=
  let stF := producerLoop user_id batch_id resolveSrc cancelSched 0
    initialProducerState elems
  let cancelledAtEnd := stF.stopped || cancelSched elems.length
  if 0 < payloadLen stF.batch ∧ cancelledAtEnd = false then
    { stF with enqueued := stF.enqueued ++ [stF.batch], batch := emptyBatch }
  else stF

/-- Number of rows one element adds to the current batch: 0 when it is
skipped, 1 for a landed record or activity summary, 1 plus the valid route
points for a landed workout. -/
def elemContribution (user_id : Nat) (batch_id : String)
    (resolveSrc : Option String → Option String → Option Nat)
    (e : ParsedElem) : Nat :=
  match e with
  | .record re =>
    match process_record_element re user_id batch_id
        (resolveSrc re.sourceName re.sourceVersion) with
    | none => 0
    | some _ => 1
  | .workout we =>
    let wp := process_workout_element we user_id batch_id
        (resolveSrc we.sourceName we.sourceVersion)
    if wp.1.time = none then 0 else 1 + wp.2.length
  | .activity ae =>
    match process_activity_summary_element ae user_id with
    | none => 0
    | some _ => 1

/-- Largest per-element row contribution over an input. -/
def maxContribution (user_id : Nat) (batch_id : String)
    (resolveSrc : Option String → Option String → Option Nat)
    (elems : List ParsedElem) : Nat :=
  (elems.map (elemContribution user_id batch_id resolveSrc)).foldr max 0

/-- Conflict on the composite primary key of `health_records`
(`time`, `user_id`, `metric_type` are the `primary_key=True` columns of the
`HealthRecord` model). -/
def pkConflict (x r : HealthRow) : Bool :=
  x.time = r.time ∧ x.user_id = r.user_id ∧ x.metric_type = r.metric_type

/-- Conflict on the unique constraint `uq_health_record_dedup`
(`user_id, metric_type, time, value, source_id`). -/
def uqConflict (x r : HealthRow) : Bool :=
  x.user_id = r.user_id ∧ x.metric_type = r.metric_type ∧ x.time = r.time ∧
    x.value = r.value ∧ x.source_id = r.source_id

/-- Embedding of `bulk_insert_health_records` (dedup.py): the staged
`INSERT INTO health_records ... SELECT ... ON CONFLICT DO NOTHING` issued by
`_copy_upsert` with `conflict_target=None`, i.e. a bare `ON CONFLICT DO
NOTHING`. PostgreSQL then skips a candidate row that conflicts with any
unique index — the primary key `(time, user_id, metric_type)` or the dedup
constraint — including rows inserted earlier in the same statement; rows are
processed in batch order. -/
def bulk_insert_health_records (table : List HealthRow)
    (records : List HealthRow) : List HealthRow :=
  records.foldl
    (fun acc r =>
      if acc.any (fun x => pkConflict x r || uqConflict x r) then acc
      else acc ++ [r])
    table

/-- Insert semantics the claim attributes to the code (conflict-ignore keyed
exactly on the 5-column dedup constraint); kept separate so it can be
compared with the semantics of the source. -/
def claimedInsertHealthRecords (table : List HealthRow)
    (records : List HealthRow) : List HealthRow :=
  records.foldl
    (fun acc r => if acc.any (fun x => uqConflict x r) then acc else acc ++ [r])
    table

/-- Observable effects of `_flush_batch` / `_insert_workouts_and_routes`
(xml_parser.py), one constructor per awaited insert/commit, plus the
exception log. `errorCountIncremented` is modelled from the spec's claim
that a workout sub-insert failure is "counted": no statement in
`_flush_batch` (or anywhere in the pipeline) produces it. -/
inductive FlushEvent where
  | healthCommitted (n : Nat)
  | categoryCommitted (n : Nat)
  | activityCommitted (n : Nat)
  | workoutsInsertAttempt (n : Nat)
  | workoutsCommitted (n : Nat)
  | routePointsInsertAttempt (n : Nat)
  | routePointsCommitted (n : Nat)
  | workoutFailureLogged (nW nR : Nat)
  | errorCountIncremented
deriving DecidableEq, Repr

/-- Which of the fallible workout-phase operations raises, abstracting the
database outcome: `ok` (both sub-inserts succeed), the workout insert/commit
raising, or the route-point insert/commit raising. -/
inductive WorkoutOutcome where
  | ok
  | workoutInsertRaises
  | routeInsertRaises
deriving DecidableEq, Repr

/-- The independent inserts of `_flush_batch`: one session-commit per
nonempty sub-list, issued through `asyncio.gather`, all awaited to
completion before the workout phase begins (the list order linearises the
three concurrent awaits; only their completion-before-workouts matters). -/
def indepEvents (b : BatchPayload) : List FlushEvent :=
  (if b.health = [] then [] else [.healthCommitted b.health.length]) ++
  (if b.category = [] then [] else [.categoryCommitted b.category.length]) ++
  (if b.activity = [] then [] else [.activityCommitted b.activity.length])

/-- The workout phase of `_flush_batch`: `_insert_workouts_and_routes`
(workouts insert + commit on one session, then, when route points exist,
their insert + commit on another) wrapped in `try/except` that logs the
failure with the workout and route-point counts. -/
def workoutPhase (b : BatchPayload) (out : WorkoutOutcome) : List FlushEvent :=
  match out with
  | .workoutInsertRaises =>
    if b.workouts = [] then []
    else
      [.workoutsInsertAttempt b.workouts.length,
       .workoutFailureLogged b.workouts.length b.route_points.length]
  | .ok =>
    if b.workouts = [] then []
    else
      [.workoutsInsertAttempt b.workouts.length,
       .workoutsCommitted b.workouts.length] ++
      (if b.route_points = [] then []
       else [.routePointsInsertAttempt b.route_points.length,
             .routePointsCommitted b.route_points.length])
  | .routeInsertRaises =>
    if b.workouts = [] then []
    else if b.route_points = [] then
      [.workoutsInsertAttempt b.workouts.length,
       .workoutsCommitted b.workouts.length]
    else
      [.workoutsInsertAttempt b.workouts.length,
       .workoutsCommitted b.workouts.length,
       .routePointsInsertAttempt b.route_points.length,
       .workoutFailureLogged b.workouts.length b.route_points.length]

/-- Embedding of `_flush_batch` (xml_parser.py) as its event trace: the
gathered independent inserts complete first, then the workout phase runs
with its exceptions caught, so the function always returns normally for any
workout-phase outcome. -/
def flush_batch (b : BatchPayload) (out : WorkoutOutcome) : List FlushEvent :=
  indepEvents b ++ workoutPhase b out

/-- Events of the gathered independent inserts. -/
def isIndepEvent : FlushEvent → Bool
  | .healthCommitted _ => true
  | .categoryCommitted _ => true
  | .activityCommitted _ => true
  | _ => false

/-- Events touching the route-point table. -/
def isRouteEvent : FlushEvent → Bool
  | .routePointsInsertAttempt _ => true
  | .routePointsCommitted _ => true
  | _ => false

/-- One attempted `UPDATE import_batches SET status=..., record_count=...`;
`ok` is false when the write itself raised. -/
structure StatusWrite where
  status : String
  record_count : Nat
  ok : Bool
deriving DecidableEq, Repr

/-- Abstracted outcome of the pipeline phase of `parse_health_export` and of
the two status writes it may attempt: `pipeline` is the joined
producer/consumer result (`ok n` carries the producer's total), and the
`...WriteErr` fields are the exceptions (if any) the success-path and the
best-effort failure-path status updates would raise. `countObserved` is the
`total_count` local at the moment an exception escapes the pipeline phase. -/
structure FinalizeEnv where
  pipeline : Except String Nat
  cancelledFlag : Bool
  successWriteErr : Option String
  failedWriteErr : Option String
  countObserved : Nat
deriving Repr

/-- Embedding of the status-finalisation control flow of
`parse_health_export` (xml_parser.py lines 821-853): on pipeline success
write `cancelled`/`completed` per the flag; any escaping exception lands in
the `except` block, which best-effort writes `failed` (swallowing an error
of that write) and re-raises the original exception. Returns the attempted
status writes in order, and the overall result. -/
def parse_health_export_finalize (env : FinalizeEnv) :
    List StatusWrite × Except String Nat :=
  match env.pipeline with
  | .error e =>
    ([⟨"failed", env.countObserved, env.failedWriteErr.isNone⟩], .error e)
  | .ok n =>
    let final_status := if env.cancelledFlag then "cancelled" else "completed"
    match env.successWriteErr with
    | none => ([⟨final_status, n, true⟩], .ok n)
    | some we =>
      ([⟨final_status, n, false⟩, ⟨"failed", n, env.failedWriteErr.isNone⟩],
       .error we)

/-- Split a character list on a separator, Python `str.split(sep)`:
`""` gives `[""]`, a leading separator contributes a leading empty part. -/
def splitChars (sep : Char) (cs : List Char) : List (List Char) :=
  cs.foldr
    (fun c acc =>
      match acc with
      | [] => [[c]]
      | g :: gs => if c = sep then [] :: g :: gs else (c :: g) :: gs)
    [[]]

/-- Python `member.split("/")` producing strings. -/
def pySplitSlash (s : String) : List String := (splitChars '/' s.data).map String.mk

/-- Join path components with `/` separators. -/
def joinSlash : List String → String
  | [] => ""
  | [p] => p
  | p :: ps => p ++ "/" ++ joinSlash ps

/-- Resolution of `(extract_dir / member).resolve()` for a zip member name:
walk the member's `/`-separated components from the (already resolved)
extraction root, popping one component per `..`. Components are the
directory names from the filesystem root. -/
def resolveUnder (base : List String) (member : String) : List String :=
  (pySplitSlash member).foldl
    (fun acc c =>
      if c = ".." then acc.dropLast
      else if c = "." ∨ c = "" then acc
      else acc ++ [c])
    base

/-- Rendering of `str(path)` for an absolute path given by its components. -/
def pathStr (p : List String) : String := "/" ++ joinSlash p

/-- The `ValueError` cases of `_extract_xml_from_zip`. -/
inductive ZipError where
  | pathTraversal
  | noXmlFound
deriving DecidableEq, Repr

/-- The member's resolved path is not inside the extraction root: the root's
components are not a prefix of the resolved path's components. -/
def escapesRoot (extractDir : List String) (member : String) : Bool :=
  decide ((resolveUnder extractDir member).take extractDir.length ≠ extractDir)

/-- Embedding of `_extract_xml_from_zip` (ingestion.py): reject the archive
when any member's resolved path fails the `str(target).startswith(str(base))`
check (raised before anything is extracted); otherwise pick the XML
candidate (`export.xml`/`Export.xml` suffix preferred, else any `.xml`),
extract all members, and return the extracted members with the chosen
candidate. -/
def extract_xml_from_zip (extractDir : List String) (members : List String) :
    Except ZipError (List String × String) :=
  if members.all (fun m =>
      pyBeginsWith (pathStr (resolveUnder extractDir m)) (pathStr extractDir)) then
    let xml1 := members.filter
      (fun n => pyEndsWith n "export.xml" || pyEndsWith n "Export.xml")
    let candidates :=
      if xml1 = [] then members.filter (fun n => pyEndsWith n ".xml") else xml1
    match candidates with
    | [] => .error .noXmlFound
    | c :: _ => .ok (members, c)
  else .error .pathTraversal

/-- Concrete categorical record element used to exercise the unknown-prefix
label path (its raw value `"abCd"` does not start with `HKCategoryValue`). -/
def recElemCat9 : XmlRecordElem :=
  ⟨some "HKCategoryTypeIdentifierSleepAnalysis", some "2024-01-15 23:00:00 -0500",
   none, some "abCd", none, none, none, none⟩

/-- Concrete instant shared by the witness rows. -/
def t0 : AppleDateTime := ⟨2024, 1, 15, 8, 30, 0, -300⟩

/-- Landed quantitative sample used in the dedup scenarios. -/
def hr1 : HealthRow := ⟨t0, none, 1, "StepCount", 5, "count", none, "b"⟩

/-- Candidate row agreeing with `hr1` on the primary-key triple
`(time, user_id, metric_type)` but with a different `value`, so its 5-column
dedup tuple is new. -/
def hr2 : HealthRow := ⟨t0, none, 1, "StepCount", 6, "count", none, "b"⟩

/-- Extraction root used in the zip scenarios (components of
`/data/uploads/export`). -/
def uploadRoot : List String := ["data", "uploads", "export"]

/-- Concrete workout row used in the flush scenarios (field values are
immaterial to the trace semantics). -/
def wrow : WorkoutRow :=
  ⟨[], 1, some t0, none, "Running", none, none, none, none, "b", none⟩

/-- Batch holding a single workout and nothing else. -/
def b6 : BatchPayload := ⟨[], [], [wrow], [], []⟩

/-- Batch holding one health row and one workout. -/
def b6h : BatchPayload := ⟨[hr1], [], [wrow], [], []⟩

/-- Quantitative record element used to fill a batch to one short of the
cap. -/
def stepRec : XmlRecordElem :=
  ⟨some "HKQuantityTypeIdentifierStepCount", some "2024-01-15 08:30:00 -0500",
   none, some "1", some "count", none, none, none⟩

/-- Row `stepRec` lands as. -/
def stepRow : HealthRow := ⟨t0, none, 1, "StepCount", 1, "count", none, "b"⟩

/-- First location child of the oversize workout. -/
def loc1 : XmlLocationElem :=
  ⟨some "2024-01-15 09:00:00 -0500", some "42.0", some "-71.0", none⟩

/-- Second location child of the oversize workout. -/
def loc2 : XmlLocationElem :=
  ⟨some "2024-01-15 09:00:05 -0500", some "42.1", some "-71.1", none⟩

/-- Workout with two valid route points; appended to a batch holding 24,999
records it contributes three rows at once. -/
def bigWorkout : XmlWorkoutElem :=
  ⟨some "HKWorkoutActivityTypeRunning", some "2024-01-15 09:00:00 -0500", none,
   none, none, none, none, none, none, none, none, none, [], [loc1, loc2]⟩

/-- Input of 24,999 records followed by the two-route-point workout. -/
def bigInput : List ParsedElem :=
  List.replicate 24999 (.record stepRec) ++ [.workout bigWorkout]

/-- Source resolver for producer scenarios without source attributes. -/
def noSrc : Option String → Option String → Option Nat := fun _ _ => none

/-- Cancellation schedule on which the flag is never set. -/
def noCancel : Nat → Bool := fun _ => false

/-- Cancellation schedule on which the progress monitor sets the flag only
after the last element has been consumed, so the producer first observes it
at the end-of-file check. -/
def cancelAtEnd : Nat → Bool := fun i => decide (0 < i)

/-- The oversize batch the producer enqueues on `bigInput`: 24,999 health
rows plus the workout and its two route points (fields spelled exactly as
the producer builds them from the empty initial state). -/
def bigBatch : BatchPayload :=
  ⟨initialProducerState.batch.health ++ List.replicate 24999 stepRow,
   initialProducerState.batch.category,
   initialProducerState.batch.workouts ++
     [(process_workout_element bigWorkout 1 "b"
        (noSrc bigWorkout.sourceName bigWorkout.sourceVersion)).1],
   initialProducerState.batch.route_points ++
     (process_workout_element bigWorkout 1 "b"
       (noSrc bigWorkout.sourceName bigWorkout.sourceVersion)).2,
   initialProducerState.batch.activity⟩

/-- Invariant maintained by the producer loop when every element of the input
contributes at most `M` rows: the accumulating batch stays strictly below
`BATCH_SIZE`, and every batch enqueued so far holds at most
`BATCH_SIZE - 1 + M` rows. -/
def producerInv (M : Nat) (st : ProducerState) : Prop :=
  payloadLen st.batch < BATCH_SIZE ∧
  ∀ b ∈ st.enqueued, payloadLen b ≤ BATCH_SIZE - 1 + M

/-- C2: the unit normalisers are pure functions with: energy units `kcal`/`Cal`
(after strip+lowercase) multiplied by 4.184 and `kJ` passed unchanged;
distance `km` multiplied by 1000, `mi`/`mile`/`miles` by 1609.344,
`m`/`meter`/`meters` unchanged; duration `min`/`minute`/`minutes` by 60,
`hr`/`hour`/`hours` by 3600, `s`/`sec`/`second`/`seconds` unchanged; any
unit outside these sets returns the raw numeric value unchanged; and a
`None` value or `None` unit yields `None`. -/
theorem C2_unit_normalisers :
    (∀ q : Option ℚ, convert_to_kj q none = none ∧ convert_to_meters q none = none ∧
      convert_duration_to_seconds q none = none) ∧
    (∀ u : Option String, convert_to_kj none u = none ∧ convert_to_meters none u = none ∧
      convert_duration_to_seconds none u = none) ∧
    (∀ (v : ℚ) (u : String),
      (pyLower (pyStrip u) = "kcal" ∨ pyLower (pyStrip u) = "cal" →
        convert_to_kj (some v) (some u) = some (v * (4184 / 1000))) ∧
      (pyLower (pyStrip u) = "kj" → convert_to_kj (some v) (some u) = some v) ∧
      (pyLower (pyStrip u) ≠ "kcal" → pyLower (pyStrip u) ≠ "cal" →
        pyLower (pyStrip u) ≠ "kj" → convert_to_kj (some v) (some u) = some v)) ∧
    (∀ (v : ℚ) (u : String),
      (pyLower (pyStrip u) = "km" → convert_to_meters (some v) (some u) = some (v * 1000)) ∧
      (pyLower (pyStrip u) = "mi" ∨ pyLower (pyStrip u) = "mile" ∨
          pyLower (pyStrip u) = "miles" →
        convert_to_meters (some v) (some u) = some (v * (1609344 / 1000))) ∧
      (pyLower (pyStrip u) = "m" ∨ pyLower (pyStrip u) = "meter" ∨
          pyLower (pyStrip u) = "meters" →
        convert_to_meters (some v) (some u) = some v) ∧
      (pyLower (pyStrip u) ≠ "km" → pyLower (pyStrip u) ≠ "mi" →
        pyLower (pyStrip u) ≠ "mile" → pyLower (pyStrip u) ≠ "miles" →
        pyLower (pyStrip u) ≠ "m" → pyLower (pyStrip u) ≠ "meter" →
        pyLower (pyStrip u) ≠ "meters" →
        convert_to_meters (some v) (some u) = some v)) ∧
    (∀ (v : ℚ) (u : String),
      (pyLower (pyStrip u) = "min" ∨ pyLower (pyStrip u) = "minute" ∨
          pyLower (pyStrip u) = "minutes" →
        convert_duration_to_seconds (some v) (some u) = some (v * 60)) ∧
      (pyLower (pyStrip u) = "hr" ∨ pyLower (pyStrip u) = "hour" ∨
          pyLower (pyStrip u) = "hours" →
        convert_duration_to_seconds (some v) (some u) = some (v * 3600)) ∧
      (pyLower (pyStrip u) = "s" ∨ pyLower (pyStrip u) = "sec" ∨
          pyLower (pyStrip u) = "second" ∨ pyLower (pyStrip u) = "seconds" →
        convert_duration_to_seconds (some v) (some u) = some v) ∧
      (pyLower (pyStrip u) ≠ "min" → pyLower (pyStrip u) ≠ "minute" →
        pyLower (pyStrip u) ≠ "minutes" → pyLower (pyStrip u) ≠ "hr" →
        pyLower (pyStrip u) ≠ "hour" → pyLower (pyStrip u) ≠ "hours" →
        pyLower (pyStrip u) ≠ "s" → pyLower (pyStrip u) ≠ "sec" →
        pyLower (pyStrip u) ≠ "second" → pyLower (pyStrip u) ≠ "seconds" →
        convert_duration_to_seconds (some v) (some u) = some v)) := by
  refine ⟨fun q => ?_, fun u => ⟨rfl, rfl, rfl⟩, fun v u => ⟨?_, ?_, ?_⟩,
    fun v u => ⟨?_, ?_, ?_, ?_⟩, fun v u => ⟨?_, ?_, ?_, ?_⟩⟩
  · cases q <;> exact ⟨rfl, rfl, rfl⟩
  · intro h
    show (if pyLower (pyStrip u) = "kcal" ∨ pyLower (pyStrip u) = "cal"
        then some (v * KCAL_TO_KJ) else _) = _
    rw [if_pos h]; rfl
  · intro h
    show (if pyLower (pyStrip u) = "kcal" ∨ pyLower (pyStrip u) = "cal"
        then some (v * KCAL_TO_KJ)
        else if pyLower (pyStrip u) = "kj" then some v else some v) = some v
    rw [if_neg (by simp [h]), if_pos h]
  · intro h1 h2 h3
    show (if pyLower (pyStrip u) = "kcal" ∨ pyLower (pyStrip u) = "cal"
        then some (v * KCAL_TO_KJ)
        else if pyLower (pyStrip u) = "kj" then some v else some v) = some v
    rw [if_neg (by simp [h1, h2]), if_neg h3]
  · intro h
    show (if pyLower (pyStrip u) = "km" then some (v * KM_TO_M) else _) = _
    rw [if_pos h]; rfl
  · intro h
    show (if pyLower (pyStrip u) = "km" then some (v * KM_TO_M)
        else if pyLower (pyStrip u) = "mi" ∨ pyLower (pyStrip u) = "mile" ∨
            pyLower (pyStrip u) = "miles" then some (v * MI_TO_M) else _) = _
    rw [if_neg (by rcases h with h | h | h <;> simp [h]), if_pos h]; rfl
  · intro h
    show (if pyLower (pyStrip u) = "km" then some (v * KM_TO_M)
        else if pyLower (pyStrip u) = "mi" ∨ pyLower (pyStrip u) = "mile" ∨
            pyLower (pyStrip u) = "miles" then some (v * MI_TO_M)
        else if pyLower (pyStrip u) = "m" ∨ pyLower (pyStrip u) = "meter" ∨
            pyLower (pyStrip u) = "meters" then some v else some v) = some v
    rw [if_neg (by rcases h with h | h | h <;> simp [h]),
        if_neg (by rcases h with h | h | h <;> simp [h]), if_pos h]
  · intro h1 h2 h3 h4 h5 h6 h7
    show (if pyLower (pyStrip u) = "km" then some (v * KM_TO_M)
        else if pyLower (pyStrip u) = "mi" ∨ pyLower (pyStrip u) = "mile" ∨
            pyLower (pyStrip u) = "miles" then some (v * MI_TO_M)
        else if pyLower (pyStrip u) = "m" ∨ pyLower (pyStrip u) = "meter" ∨
            pyLower (pyStrip u) = "meters" then some v else some v) = some v
    rw [if_neg h1, if_neg (by simp [h2, h3, h4]), if_neg (by simp [h5, h6, h7])]
  · intro h
    show (if pyLower (pyStrip u) = "min" ∨ pyLower (pyStrip u) = "minute" ∨
        pyLower (pyStrip u) = "minutes" then some (v * MIN_TO_SEC) else _) = _
    rw [if_pos h]; rfl
  · intro h
    show (if pyLower (pyStrip u) = "min" ∨ pyLower (pyStrip u) = "minute" ∨
        pyLower (pyStrip u) = "minutes" then some (v * MIN_TO_SEC)
        else if pyLower (pyStrip u) = "hr" ∨ pyLower (pyStrip u) = "hour" ∨
            pyLower (pyStrip u) = "hours" then some (v * HR_TO_SEC) else _) = _
    rw [if_neg (by rcases h with h | h | h <;> simp [h]), if_pos h]; rfl
  · intro h
    show (if pyLower (pyStrip u) = "min" ∨ pyLower (pyStrip u) = "minute" ∨
        pyLower (pyStrip u) = "minutes" then some (v * MIN_TO_SEC)
        else if pyLower (pyStrip u) = "hr" ∨ pyLower (pyStrip u) = "hour" ∨
            pyLower (pyStrip u) = "hours" then some (v * HR_TO_SEC)
        else if pyLower (pyStrip u) = "s" ∨ pyLower (pyStrip u) = "sec" ∨
            pyLower (pyStrip u) = "second" ∨ pyLower (pyStrip u) = "seconds"
          then some v else some v) = some v
    rw [if_neg (by rcases h with h | h | h | h <;> simp [h]),
        if_neg (by rcases h with h | h | h | h <;> simp [h]), if_pos h]
  · intro h1 h2 h3 h4 h5 h6 h7 h8 h9 h10
    show (if pyLower (pyStrip u) = "min" ∨ pyLower (pyStrip u) = "minute" ∨
        pyLower (pyStrip u) = "minutes" then some (v * MIN_TO_SEC)
        else if pyLower (pyStrip u) = "hr" ∨ pyLower (pyStrip u) = "hour" ∨
            pyLower (pyStrip u) = "hours" then some (v * HR_TO_SEC)
        else if pyLower (pyStrip u) = "s" ∨ pyLower (pyStrip u) = "sec" ∨
            pyLower (pyStrip u) = "second" ∨ pyLower (pyStrip u) = "seconds"
          then some v else some v) = some v
    rw [if_neg (by simp [h1, h2, h3]), if_neg (by simp [h4, h5, h6]),
        if_neg (by simp [h7, h8, h9, h10])]

/-- Closed instance of `C2_unit_normalisers` at concrete units, discharging
its normalised-unit hypotheses by evaluation. -/
theorem C2_unit_normalisers_witness :
    convert_to_kj (some 100) (some " Cal ") = some (100 * (4184 / 1000)) ∧
    convert_to_meters (some 3) (some "Miles") = some (3 * (1609344 / 1000)) ∧
    convert_duration_to_seconds (some 2) (some "hr") = some (2 * 3600) ∧
    convert_to_kj (some 7) (some "count") = some 7 :=
  ⟨(C2_unit_normalisers.2.2.1 100 " Cal ").1 (by decide),
   (C2_unit_normalisers.2.2.2.1 3 "Miles").2.1 (by decide),
   (C2_unit_normalisers.2.2.2.2 2 "hr").2.1 (by decide),
   (C2_unit_normalisers.2.2.1 7 "count").2.2 (by decide) (by decide) (by decide)⟩

/-- C10: when a `<Workout>` element carries no `durationUnit`,
`totalDistanceUnit`, or `totalEnergyBurnedUnit` attribute, the parser
substitutes the defaults `"min"`, `"km"`, `"kcal"`, so a parseable numeric
value is converted (multiplied by 60, 1000, 4.184) rather than stored as
provided. -/
theorem C10_workout_default_units (e : XmlWorkoutElem) (u : Nat) (bid : String)
    (sid : Option Nat) :
    (∀ vd : ℚ, e.durationUnit = none → safe_float e.duration = some vd →
      (process_workout_element e u bid sid).1.duration_sec = some (vd * 60)) ∧
    (∀ vdist : ℚ, e.totalDistanceUnit = none →
      safe_float e.totalDistance = some vdist →
      (process_workout_element e u bid sid).1.total_distance_m =
        some (vdist * 1000)) ∧
    (∀ ven : ℚ, e.totalEnergyBurnedUnit = none →
      safe_float e.totalEnergyBurned = some ven →
      (process_workout_element e u bid sid).1.total_energy_kj =
        some (ven * (4184 / 1000))) := by
  refine ⟨?_, ?_, ?_⟩ <;> intro v hnone hval <;>
    unfold process_workout_element <;> rw [hnone, hval] <;> rfl

/-- Closed instances of `C10_workout_default_units`, one per attribute: a
workout missing only `durationUnit` (and with no `totalDistance` attribute
at all), one missing only `totalDistanceUnit`, one missing only
`totalEnergyBurnedUnit`. -/
theorem C10_workout_default_units_witness :
    (process_workout_element
      ⟨some "HKWorkoutActivityTypeRunning", some "2024-01-15 09:00:00 -0500",
       none, some "30", none, none, some "km", some "200", some "kcal", none,
       none, none, [], []⟩ 1 "b" none).1.duration_sec = some (30 * 60) ∧
    (process_workout_element
      ⟨some "HKWorkoutActivityTypeRunning", some "2024-01-15 09:00:00 -0500",
       none, some "30", some "min", some "5", none, some "200", some "kcal",
       none, none, none, [], []⟩ 1 "b" none).1.total_distance_m =
      some (5 * 1000) ∧
    (process_workout_element
      ⟨some "HKWorkoutActivityTypeRunning", some "2024-01-15 09:00:00 -0500",
       none, some "30", some "min", some "5", some "km", some "200", none,
       none, none, none, [], []⟩ 1 "b" none).1.total_energy_kj =
      some (200 * (4184 / 1000)) :=
  ⟨(C10_workout_default_units _ 1 "b" none).1 30 rfl
     (by with_unfolding_all decide),
   (C10_workout_default_units _ 1 "b" none).2.1 5 rfl
     (by with_unfolding_all decide),
   (C10_workout_default_units _ 1 "b" none).2.2 200 rfl
     (by with_unfolding_all decide)⟩

/-- C1: for a workout element with owner `u`, parsed start time `t` and
cleaned activity type `a`, the computed workout id is the UUIDv5 of
`"u:t.isoformat():a"` under the fixed namespace
`a1b2c3d4-e5f6-7890-abcd-ef1234567890`; hence any two workout elements
agreeing on `(owner_id, start_time, activity_type)` receive the identical
id, independently of every other attribute, the batch and the source. -/
theorem C1_workout_id_uuid5 (e : XmlWorkoutElem) (u : Nat) (bid : String)
    (sid : Option Nat) (t : AppleDateTime)
    (ht : parse_apple_date e.startDate = some t) :
    (process_workout_element e u bid sid).1.id =
      uuid5Bytes WORKOUT_NS
        (toString u ++ ":" ++ isoformat t ++ ":" ++
          clean_type_name (e.workoutActivityType.getD "") hkWorkoutActivity) ∧
    (∀ (e2 : XmlWorkoutElem) (bid2 : String) (sid2 : Option Nat),
      parse_apple_date e2.startDate = some t →
      clean_type_name (e2.workoutActivityType.getD "") hkWorkoutActivity =
        clean_type_name (e.workoutActivityType.getD "") hkWorkoutActivity →
      (process_workout_element e2 u bid2 sid2).1.id =
        (process_workout_element e u bid sid).1.id) := by
  constructor
  · simp only [process_workout_element, mkDedupKey]
    rw [ht]
  · intro e2 bid2 sid2 ht2 ha
    simp only [process_workout_element, mkDedupKey]
    rw [ht, ht2, ha]

/-- Closed instance of `C1_workout_id_uuid5`: a concrete element's id equals
the UUIDv5 of its dedup-key string, and a second element differing in every
other attribute gets the same id. -/
theorem C1_workout_id_uuid5_witness :
    (process_workout_element
      ⟨some "HKWorkoutActivityTypeRunning", some "2024-01-15 08:30:00 -0500",
       none, some "30", none, none, none, none, none, none, none, none, [], []⟩
      1 "batchA" none).1.id =
      uuid5Bytes WORKOUT_NS
        (toString 1 ++ ":" ++ isoformat ⟨2024, 1, 15, 8, 30, 0, -300⟩ ++ ":" ++
          clean_type_name ((some "HKWorkoutActivityTypeRunning").getD "")
            hkWorkoutActivity) ∧
    (process_workout_element
      ⟨some "HKWorkoutActivityTypeRunning", some "  2024-01-15 08:30:00 -0500",
       some "2024-01-15 09:30:00 -0500", some "45", some "hr", some "5", none,
       some "200", none, some "Watch", some "1.0", none, [], []⟩
      1 "batchB" (some 7)).1.id =
    (process_workout_element
      ⟨some "HKWorkoutActivityTypeRunning", some "2024-01-15 08:30:00 -0500",
       none, some "30", none, none, none, none, none, none, none, none, [], []⟩
      1 "batchA" none).1.id :=
  ⟨(C1_workout_id_uuid5 _ 1 "batchA" none ⟨2024, 1, 15, 8, 30, 0, -300⟩
      (by decide)).1,
   (C1_workout_id_uuid5 _ 1 "batchA" none ⟨2024, 1, 15, 8, 30, 0, -300⟩
      (by decide)).2 _ "batchB" (some 7) (by decide) (by decide)⟩

/-- The claim's prediction for C9 fails: a categorical record whose raw value
`"abCd"` does not start with `HKCategoryValue` lands with the raw value
stored unchanged but with label `"ab Cd"`, not the empty string. -/
theorem C9_counterexample :
    (pyBeginsWith "abCd" "HKCategoryValue" = false) ∧
    process_record_element recElemCat9 1 "b" none =
      some (.category
        ⟨⟨2024, 1, 15, 23, 0, 0, -300⟩, none, 1, "SleepAnalysis", "abCd",
         "ab Cd", none, "b"⟩) ∧
    "ab Cd" ≠ "" := by
  exact ⟨rfl, by decide, by decide⟩

/-- C9 as amended: a categorical record whose raw value does not start with
`HKCategoryValue` lands with the raw value stored unchanged and with label
equal to that raw value spaced at every lowercase-to-uppercase boundary and
stripped (so the label is empty only when the raw value strips to nothing,
not in general). -/
theorem C9_amended_category_label (e : XmlRecordElem) (u : Nat) (bid : String)
    (sid : Option Nat) (t : AppleDateTime) (v : String)
    (hstart : parse_apple_date e.startDate = some t)
    (htype : pyBeginsWith (e.typeAttr.getD "") hkCategoryType = true)
    (hqty : pyBeginsWith (e.typeAttr.getD "") hkQuantityType = false)
    (hv : e.value = some v)
    (hnp : pyBeginsWith v "HKCategoryValue" = false)
    (hne : v ≠ "") :
    process_record_element e u bid sid =
      some (.category
        ⟨t, parse_apple_date e.endDate, u,
         clean_type_name (e.typeAttr.getD "") hkCategoryType, v,
         String.mk (stripChars (camelSpace v.data)), sid, bid⟩) := by
  have hlabel : clean_category_value v = String.mk (stripChars (camelSpace v.data)) := by
    unfold clean_category_value
    rw [if_neg hne, hnp]
    simp
  simp only [process_record_element]
  rw [hstart]
  simp [hqty, htype, hv, hlabel]

/-- Closed instance of `C9_amended_category_label` at the `"abCd"` element. -/
theorem C9_amended_category_label_witness :
    process_record_element recElemCat9 1 "b" none =
      some (.category
        ⟨⟨2024, 1, 15, 23, 0, 0, -300⟩, parse_apple_date recElemCat9.endDate, 1,
         clean_type_name (recElemCat9.typeAttr.getD "") hkCategoryType, "abCd",
         String.mk (stripChars (camelSpace "abCd".data)), none, "b"⟩) :=
  C9_amended_category_label recElemCat9 1 "b" none ⟨2024, 1, 15, 23, 0, 0, -300⟩
    "abCd" (by decide) (by decide) (by decide) rfl (by decide) (by decide)

/-- The claim's prediction for C3 fails: `bulk_insert_health_records` skips
a row whose 5-column dedup tuple is new whenever its primary-key triple
`(time, user_id, metric_type)` already exists, because the staged insert uses
a bare `ON CONFLICT DO NOTHING` that also covers the primary key. -/
theorem C3_counterexample :
    (∀ x ∈ [hr1], uqConflict x hr2 = false) ∧
    bulk_insert_health_records [hr1] [hr2] = [hr1] := by
  constructor
  · intro x hx
    rw [List.mem_singleton.mp hx]
    with_unfolding_all decide
  · with_unfolding_all decide

/-- C3 as amended: the bulk insert ignores conflicts on every unique index of
`health_records`, not exactly on the 5-column dedup key: a row whose 5-tuple
already exists is skipped (first conjunct, the half of the claim that holds),
and in general the insert behaves exactly as dedup on the primary-key triple
`(time, user_id, metric_type)`, which subsumes the 5-column constraint
(second conjunct). -/
theorem C3_amended_insert_semantics :
    (∀ (t : List HealthRow) (r : HealthRow), (∃ x ∈ t, uqConflict x r = true) →
      bulk_insert_health_records t [r] = t) ∧
    (∀ (t : List HealthRow) (rs : List HealthRow),
      bulk_insert_health_records t rs =
        rs.foldl
          (fun acc r => if acc.any (fun x => pkConflict x r) then acc
            else acc ++ [r]) t) := by
  have huqpk : ∀ x r : HealthRow, (pkConflict x r || uqConflict x r) = pkConflict x r := by
    intro x r
    cases hpk : pkConflict x r
    · cases huq : uqConflict x r
      · rfl
      · exfalso
        have hp : x.user_id = r.user_id ∧ x.metric_type = r.metric_type ∧
            x.time = r.time ∧ x.value = r.value ∧ x.source_id = r.source_id := by
          have := huq
          unfold uqConflict at this
          exact of_decide_eq_true this
        have : pkConflict x r = true := by
          unfold pkConflict
          exact decide_eq_true ⟨hp.2.2.1, hp.1, hp.2.1⟩
        rw [hpk] at this
        exact Bool.false_ne_true this
    · rfl
  constructor
  · intro t r hex
    obtain ⟨x, hx, hconf⟩ := hex
    have hany : (t.any fun y => pkConflict y r || uqConflict y r) = true :=
      List.any_eq_true.mpr ⟨x, hx, by simp [hconf]⟩
    unfold bulk_insert_health_records
    rw [List.foldl_cons, List.foldl_nil, if_pos hany]
  · intro t rs
    unfold bulk_insert_health_records
    have hfun : (fun (acc : List HealthRow) (r : HealthRow) =>
        if acc.any (fun x => pkConflict x r || uqConflict x r) then acc
        else acc ++ [r]) =
        (fun acc r => if acc.any (fun x => pkConflict x r) then acc
          else acc ++ [r]) := by
      funext acc r
      simp only [huqpk]
    rw [hfun]

/-- Closed instance of `C3_amended_insert_semantics`: re-inserting a row whose
5-tuple already exists leaves the table unchanged, and the full insert agrees
with primary-key-only dedup on a concrete batch. -/
theorem C3_amended_insert_semantics_witness :
    bulk_insert_health_records [hr1] [hr1] = [hr1] ∧
    bulk_insert_health_records [] [hr1, hr2, hr1] =
      [hr1, hr2, hr1].foldl
        (fun acc r => if acc.any (fun x => pkConflict x r) then acc
          else acc ++ [r]) [] :=
  ⟨C3_amended_insert_semantics.1 [hr1] hr1
      ⟨hr1, List.mem_singleton.mpr rfl, by with_unfolding_all decide⟩,
   C3_amended_insert_semantics.2 [] [hr1, hr2, hr1]⟩

/-- C7's cancelled branch does not write "the count landed so far": with a
single landed record and cancellation observed only at the end-of-file
check, the producer drops the counted trailing partial batch (nothing is
enqueued), yet its returned total is 1, and the `cancelled` status write
carries `record_count` 1 while 0 rows landed. -/
theorem C7_counterexample :
    (producerRun 1 "b" noSrc cancelAtEnd [.record stepRec]).enqueued = [] ∧
    (producerRun 1 "b" noSrc cancelAtEnd [.record stepRec]).total_count = 1 ∧
    parse_health_export_finalize
      ⟨.ok (producerRun 1 "b" noSrc cancelAtEnd [.record stepRec]).total_count,
       true, none, none, 0⟩ =
      ([⟨"cancelled", 1, true⟩], .ok 1) := by
  refine ⟨?_, ?_, ?_⟩ <;> with_unfolding_all rfl

/-- C7 amended: `parse_health_export` finalises the batch status exactly once
per outcome, always with the producer's total processed count `n` (not the
count landed so far): pipeline success with the cancellation flag unset
writes `completed` with `n`; with the flag set it writes `cancelled` with
`n`; an uncaught pipeline exception triggers a best-effort `failed` write
whose own error is swallowed while the original error is re-raised; and a
failing success-path status write itself becomes the uncaught error, after
which `failed` is attempted. -/
theorem C7_amended_terminal_status (env : FinalizeEnv) :
    (∀ n, env.pipeline = .ok n → env.cancelledFlag = false →
      env.successWriteErr = none →
      parse_health_export_finalize env = ([⟨"completed", n, true⟩], .ok n)) ∧
    (∀ n, env.pipeline = .ok n → env.cancelledFlag = true →
      env.successWriteErr = none →
      parse_health_export_finalize env = ([⟨"cancelled", n, true⟩], .ok n)) ∧
    (∀ e, env.pipeline = .error e →
      parse_health_export_finalize env =
        ([⟨"failed", env.countObserved, env.failedWriteErr.isNone⟩], .error e)) ∧
    (∀ n we, env.pipeline = .ok n → env.successWriteErr = some we →
      parse_health_export_finalize env =
        ([⟨if env.cancelledFlag then "cancelled" else "completed", n, false⟩,
          ⟨"failed", n, env.failedWriteErr.isNone⟩], .error we)) := by
  refine ⟨?_, ?_, ?_, ?_⟩
  · intro n hp hc hs
    unfold parse_health_export_finalize
    rw [hp, hc, hs]
    rfl
  · intro n hp hc hs
    unfold parse_health_export_finalize
    rw [hp, hc, hs]
    rfl
  · intro e hp
    unfold parse_health_export_finalize
    rw [hp]
  · intro n we hp hs
    unfold parse_health_export_finalize
    rw [hp, hs]

/-- Closed instances of `C7_amended_terminal_status` covering all four
outcomes at concrete environments (including a failing best-effort `failed`
write, which is recorded as unsuccessful while the original error still
propagates). -/
theorem C7_amended_terminal_status_witness :
    parse_health_export_finalize ⟨.ok 42, false, none, none, 0⟩ =
      ([⟨"completed", 42, true⟩], .ok 42) ∧
    parse_health_export_finalize ⟨.ok 17, true, none, none, 0⟩ =
      ([⟨"cancelled", 17, true⟩], .ok 17) ∧
    parse_health_export_finalize ⟨.error "boom", false, none, some "dbdown", 9⟩ =
      ([⟨"failed", 9, false⟩], .error "boom") ∧
    parse_health_export_finalize ⟨.ok 5, false, some "wfail", none, 5⟩ =
      ([⟨"completed", 5, false⟩, ⟨"failed", 5, true⟩], .error "wfail") :=
  ⟨(C7_amended_terminal_status _).1 42 rfl rfl rfl,
   (C7_amended_terminal_status _).2.1 17 rfl rfl rfl,
   (C7_amended_terminal_status _).2.2.1 "boom" rfl,
   (C7_amended_terminal_status _).2.2.2 5 "wfail" rfl rfl⟩

/-- C8 (code bug): the zip-slip check validates with a bare string
`startswith`, so a member resolving to a sibling of the extraction root that
shares its name as a prefix (`/data/uploads/export` vs
`/data/uploads/exportevil/...`) escapes the root yet passes, and extraction
proceeds; the plain `../etc/passwd` traversal is rejected as the spec
describes. -/
theorem C8_zip_slip_bypass :
    escapesRoot uploadRoot "../exportevil/export.xml" = true ∧
    extract_xml_from_zip uploadRoot ["../exportevil/export.xml"] =
      .ok (["../exportevil/export.xml"], "../exportevil/export.xml") ∧
    extract_xml_from_zip uploadRoot ["../etc/passwd", "export.xml"] =
      .error .pathTraversal := by
  exact ⟨by decide, rfl, rfl⟩

/-- Skipping a `<Record>` with unparseable `startDate` leaves the producer
state unchanged (the loop simply moves to the next element). -/
theorem producerStep_record_none (e : XmlRecordElem) (u : Nat) (bid : String)
    (f : Option String → Option String → Option Nat) (cancel : Bool)
    (st : ProducerState) (hstop : st.stopped = false)
    (hlen : payloadLen st.batch < BATCH_SIZE)
    (h : process_record_element e u bid (f e.sourceName e.sourceVersion) = none) :
    producerStep u bid f cancel st (.record e) = st := by
  unfold producerStep
  rw [hstop]
  simp only [Bool.false_eq_true, if_false]
  simp only [applyElem]
  rw [h]
  unfold flushCheck
  rw [if_neg (Nat.not_le.mpr hlen)]

/-- C4: a `<Record>` with no parseable `startDate`, and a quantitative
`<Record>` with no parseable `value`, produce no row and the producer state
is unchanged; a `<Workout>` with no parseable start time produces no workout
row and only increments the producer's skipped-workout counter. -/
theorem C4_element_skip :
    (∀ (e : XmlRecordElem) (u : Nat) (bid : String) (sid : Option Nat),
      parse_apple_date e.startDate = none →
      process_record_element e u bid sid = none) ∧
    (∀ (e : XmlRecordElem) (u : Nat) (bid : String) (sid : Option Nat),
      pyBeginsWith (e.typeAttr.getD "") hkQuantityType = true →
      safe_float e.value = none →
      process_record_element e u bid sid = none) ∧
    (∀ (e : XmlRecordElem) (u : Nat) (bid : String)
      (f : Option String → Option String → Option Nat) (cancel : Bool)
      (st : ProducerState), st.stopped = false →
      payloadLen st.batch < BATCH_SIZE →
      process_record_element e u bid (f e.sourceName e.sourceVersion) = none →
      producerStep u bid f cancel st (.record e) = st) ∧
    (∀ (e : XmlWorkoutElem) (u : Nat) (bid : String)
      (f : Option String → Option String → Option Nat) (cancel : Bool)
      (st : ProducerState), st.stopped = false →
      payloadLen st.batch < BATCH_SIZE →
      parse_apple_date e.startDate = none →
      producerStep u bid f cancel st (.workout e) =
        { st with skipped_workouts := st.skipped_workouts + 1 }) := by
  refine ⟨?_, ?_, ?_, ?_⟩
  · intro e u bid sid h
    unfold process_record_element
    rw [h]
  · intro e u bid sid hq hv
    cases hstart : parse_apple_date e.startDate
    · unfold process_record_element
      rw [hstart]
    · simp only [process_record_element, hstart]
      rw [hq, hv]
      rfl
  · intro e u bid f cancel st hstop hlen h
    exact producerStep_record_none e u bid f cancel st hstop hlen h
  · intro e u bid f cancel st hstop hlen ht
    have htime : (process_workout_element e u bid
        (f e.sourceName e.sourceVersion)).1.time = none := ht
    unfold producerStep
    rw [hstop]
    simp only [Bool.false_eq_true, if_false]
    simp only [applyElem]
    rw [if_pos htime]
    unfold flushCheck
    rw [if_neg (Nat.not_le.mpr hlen), hstop]

/-- Closed instances of `C4_element_skip`: a record with a missing
`startDate`, a quantitative record with non-numeric `value`, and a workout
with a malformed start time, all at the initial producer state. -/
theorem C4_element_skip_witness :
    process_record_element
      ⟨some "HKQuantityTypeIdentifierStepCount", none, none, some "100",
       some "count", none, none, none⟩ 1 "b" none = none ∧
    process_record_element
      ⟨some "HKQuantityTypeIdentifierStepCount",
       some "2024-01-15 08:00:00 -0500", none, some "12kg", some "count",
       none, none, none⟩ 1 "b" none = none ∧
    producerStep 1 "b" (fun _ _ => none) false initialProducerState
      (.record ⟨some "HKQuantityTypeIdentifierStepCount", none, none,
        some "100", some "count", none, none, none⟩) = initialProducerState ∧
    producerStep 1 "b" (fun _ _ => none) false initialProducerState
      (.workout ⟨some "HKWorkoutActivityTypeRunning", some "not-a-date", none,
        none, none, none, none, none, none, none, none, none, [], []⟩) =
      { initialProducerState with skipped_workouts :=
          initialProducerState.skipped_workouts + 1 } :=
  ⟨C4_element_skip.1 _ 1 "b" none rfl,
   C4_element_skip.2.1 _ 1 "b" none (by decide) (by with_unfolding_all decide),
   C4_element_skip.2.2.1 _ 1 "b" (fun _ _ => none) false initialProducerState
     rfl (by decide) (by with_unfolding_all decide),
   C4_element_skip.2.2.2 _ 1 "b" (fun _ _ => none) false initialProducerState
     rfl (by decide) (by decide)⟩

/-- Every event of the gathered independent phase is an independent-table
commit. -/
theorem indepEvents_all_indep (b : BatchPayload) :
    ∀ e ∈ indepEvents b, isIndepEvent e = true := by
  intro e he
  unfold indepEvents at he
  split_ifs at he <;>
    first
    | exact (List.not_mem_nil e he).elim
    | (fin_cases he <;> rfl)

/-- No event of the workout phase is an independent-table commit. -/
theorem workoutPhase_not_indep (b : BatchPayload) (out : WorkoutOutcome) :
    ∀ e ∈ workoutPhase b out, isIndepEvent e = false := by
  intro e he
  unfold workoutPhase at he
  cases out <;> split_ifs at he <;>
    first
    | exact (List.not_mem_nil e he).elim
    | (fin_cases he <;> rfl)

/-- In a concatenated trace whose first part satisfies a predicate and whose
second part refutes it, any satisfying event is positioned strictly before
any refuting event. -/
theorem split_index_lt {α : Type} (p : α → Bool) (l1 l2 : List α)
    (h1 : ∀ e ∈ l1, p e = true) (h2 : ∀ e ∈ l2, p e = false)
    (i j : Nat) (e1 e2 : α)
    (hi : (l1 ++ l2)[i]? = some e1) (hp1 : p e1 = true)
    (hj : (l1 ++ l2)[j]? = some e2) (hp2 : p e2 = false) : i < j := by
  have hiL : i < l1.length := by
    by_contra hge
    push_neg at hge
    rw [List.getElem?_append_right hge] at hi
    have hm : e1 ∈ l2 := List.getElem?_mem hi
    rw [h2 e1 hm] at hp1
    exact Bool.false_ne_true hp1
  have hjL : l1.length ≤ j := by
    by_contra hlt
    push_neg at hlt
    rw [List.getElem?_append_left hlt] at hj
    have hm : e2 ∈ l1 := List.getElem?_mem hj
    rw [h1 e2 hm] at hp2
    exact absurd hp2 (by decide)
  omega

/-- C6 as amended: the independent health/category/activity inserts complete
before any workout-phase event; a failing workout sub-insert yields a trace
ending in the caught-and-logged failure, with the independent commits
untouched and the flush returning normally; on success workouts commit
before route points are attempted; and a route-point insert attempt implies
the workout insert succeeded and its commit is in the trace. (The claim's
"counted" has no counterpart in the code: no error counter is incremented,
see the counterexample.) -/
theorem C6_amended_flush_order :
    (∀ (b : BatchPayload) (out : WorkoutOutcome) (i j : Nat)
      (e1 e2 : FlushEvent),
      (flush_batch b out)[i]? = some e1 → isIndepEvent e1 = true →
      (flush_batch b out)[j]? = some e2 → isIndepEvent e2 = false → i < j) ∧
    (∀ b : BatchPayload, b.workouts ≠ [] →
      flush_batch b .workoutInsertRaises =
        indepEvents b ++
          [.workoutsInsertAttempt b.workouts.length,
           .workoutFailureLogged b.workouts.length b.route_points.length]) ∧
    (∀ b : BatchPayload, b.workouts ≠ [] → b.route_points ≠ [] →
      flush_batch b .ok =
        indepEvents b ++
          [.workoutsInsertAttempt b.workouts.length,
           .workoutsCommitted b.workouts.length,
           .routePointsInsertAttempt b.route_points.length,
           .routePointsCommitted b.route_points.length]) ∧
    (∀ (b : BatchPayload) (out : WorkoutOutcome) (n j : Nat),
      (flush_batch b out)[j]? = some (.routePointsInsertAttempt n) →
      out ≠ .workoutInsertRaises ∧
      .workoutsCommitted b.workouts.length ∈ flush_batch b out) := by
  refine ⟨?_, ?_, ?_, ?_⟩
  · intro b out i j e1 e2 hi hp1 hj hp2
    exact split_index_lt isIndepEvent (indepEvents b) (workoutPhase b out)
      (indepEvents_all_indep b) (workoutPhase_not_indep b out) i j e1 e2
      hi hp1 hj hp2
  · intro b hw
    simp only [flush_batch, workoutPhase]
    rw [if_neg hw]
  · intro b hw hr
    simp only [flush_batch, workoutPhase]
    rw [if_neg hw, if_neg hr]
    rfl
  · intro b out n j hj
    have hm := List.getElem?_mem hj
    rcases List.mem_append.mp hm with hmem | hmem
    · have := indepEvents_all_indep b _ hmem
      simp [isIndepEvent] at this
    · cases out with
      | workoutInsertRaises =>
        exfalso
        simp only [workoutPhase] at hmem
        split_ifs at hmem <;> simp_all
      | ok =>
        refine ⟨by simp, List.mem_append_right _ ?_⟩
        simp only [workoutPhase] at hmem ⊢
        split_ifs at hmem <;> simp_all
      | routeInsertRaises =>
        refine ⟨by simp, List.mem_append_right _ ?_⟩
        simp only [workoutPhase] at hmem ⊢
        split_ifs at hmem <;> simp_all

/-- The claim's "counted" conjunct for C6 fails on the code: a concrete batch
whose workout insert raises produces the caught-and-logged trace but no
error-counter increment event (nothing in the pipeline ever produces one). -/
theorem C6_counterexample :
    FlushEvent.workoutFailureLogged 1 0 ∈ flush_batch b6 .workoutInsertRaises ∧
    FlushEvent.errorCountIncremented ∉ flush_batch b6 .workoutInsertRaises := by
  decide

/-- Closed instances of `C6_amended_flush_order`: the independent commit at
index 0 precedes the workout attempt at index 1, and the failing-workout
trace of a concrete batch is exactly the logged shape. -/
theorem C6_amended_flush_order_witness :
    (0 : Nat) < 1 ∧
    flush_batch b6 .workoutInsertRaises =
      indepEvents b6 ++
        [.workoutsInsertAttempt b6.workouts.length,
         .workoutFailureLogged b6.workouts.length b6.route_points.length] :=
  ⟨C6_amended_flush_order.1 b6h .workoutInsertRaises 0 1
      (.healthCommitted 1) (.workoutsInsertAttempt 1)
      (by decide) (by decide) (by decide) (by decide),
   C6_amended_flush_order.2.1 b6 (by decide)⟩

/-- The per-tag dispatch leaves the enqueued list and the stop flag alone and
grows the current batch by exactly the element's contribution. -/
theorem applyElem_effects (u : Nat) (bid : String)
    (f : Option String → Option String → Option Nat) (st : ProducerState)
    (e : ParsedElem) :
    (applyElem u bid f st e).enqueued = st.enqueued ∧
    (applyElem u bid f st e).stopped = st.stopped ∧
    payloadLen (applyElem u bid f st e).batch =
      payloadLen st.batch + elemContribution u bid f e := by
  cases e with
  | record re =>
    simp only [applyElem, elemContribution]
    cases hres : process_record_element re u bid (f re.sourceName re.sourceVersion) with
    | none => simp
    | some res =>
      cases res <;> simp [payloadLen] <;> omega
  | workout we =>
    simp only [applyElem, elemContribution]
    by_cases hT : (process_workout_element we u bid
        (f we.sourceName we.sourceVersion)).1.time = none
    · simp [hT]
    · simp [hT, payloadLen]
      omega
  | activity ae =>
    simp only [applyElem, elemContribution]
    cases hres : process_activity_summary_element ae u with
    | none => simp
    | some r => simp [payloadLen]; omega

/-- One producer iteration preserves the batch-size invariant. -/
theorem producerStep_inv (u : Nat) (bid : String)
    (f : Option String → Option String → Option Nat) (cancel : Bool)
    (M : Nat) (st : ProducerState) (e : ParsedElem)
    (hc : elemContribution u bid f e ≤ M)
    (h : producerInv M st) : producerInv M (producerStep u bid f cancel st e) := by
  obtain ⟨hlen, henq⟩ := h
  unfold producerStep
  by_cases hstop : st.stopped = true
  · rw [if_pos hstop]
    exact ⟨hlen, henq⟩
  · rw [if_neg hstop]
    obtain ⟨he, hs, hp⟩ := applyElem_effects u bid f st e
    unfold flushCheck
    by_cases hfull : BATCH_SIZE ≤ payloadLen (applyElem u bid f st e).batch
    · rw [if_pos hfull]
      have hmem : ∀ b ∈ (applyElem u bid f st e).enqueued ++
          [(applyElem u bid f st e).batch],
          payloadLen b ≤ BATCH_SIZE - 1 + M := by
        intro b hb
        rcases List.mem_append.mp hb with hb | hb
        · exact henq b (he ▸ hb)
        · rw [List.mem_singleton.mp hb]
          omega
      have hempty : payloadLen emptyBatch < BATCH_SIZE := by decide
      by_cases hcan : cancel = true
      · rw [if_pos hcan]
        exact ⟨hempty, hmem⟩
      · rw [if_neg hcan]
        exact ⟨hempty, hmem⟩
    · rw [if_neg hfull]
      refine ⟨Nat.lt_of_not_le hfull, ?_⟩
      rw [he]
      exact henq

/-- The producer loop preserves the batch-size invariant. -/
theorem producerLoop_inv (u : Nat) (bid : String)
    (f : Option String → Option String → Option Nat) (sched : Nat → Bool)
    (M : Nat) :
    ∀ (elems : List ParsedElem) (i : Nat) (st : ProducerState),
      (∀ e ∈ elems, elemContribution u bid f e ≤ M) →
      producerInv M st →
      producerInv M (producerLoop u bid f sched i st elems) := by
  intro elems
  induction elems with
  | nil => intro i st _ h; exact h
  | cons e rest ih =>
    intro i st hall h
    exact ih (i + 1) _ (fun x hx => hall x (List.mem_cons_of_mem e hx))
      (producerStep_inv u bid f (sched i) M st e
        (hall e (List.mem_cons_self e rest)) h)

/-- Every element's contribution is bounded by the input's maximum
contribution. -/
theorem contrib_le_max (u : Nat) (bid : String)
    (f : Option String → Option String → Option Nat) :
    ∀ (elems : List ParsedElem), ∀ e ∈ elems,
      elemContribution u bid f e ≤ maxContribution u bid f elems := by
  intro elems
  induction elems with
  | nil => intro e he; cases he
  | cons a rest ih =>
    intro e he
    unfold maxContribution
    simp only [List.map_cons, List.foldr_cons]
    rcases List.mem_cons.mp he with rfl | hmem
    · exact Nat.le_max_left _ _
    · exact le_trans (ih e hmem) (Nat.le_max_right _ _)

/-- C5 as amended: every `BatchPayload` the producer enqueues holds at most
`BATCH_SIZE - 1 + c` records, where `c` is the largest number of rows a
single element of the input contributes (1 for a landed record or activity
summary, 1 plus its valid route points for a landed workout); the flat
25,000 cap of the claim holds only when no element contributes more than one
row, and is exceeded exactly when a workout's route points push a nearly
full batch past the threshold. -/
theorem C5_amended_batch_bound (u : Nat) (bid : String)
    (f : Option String → Option String → Option Nat) (sched : Nat → Bool)
    (elems : List ParsedElem) :
    ∀ b ∈ (producerRun u bid f sched elems).enqueued,
      payloadLen b ≤ BATCH_SIZE - 1 + maxContribution u bid f elems := by
  have hinv : producerInv (maxContribution u bid f elems)
      (producerLoop u bid f sched 0 initialProducerState elems) :=
    producerLoop_inv u bid f sched _ elems 0 initialProducerState
      (contrib_le_max u bid f elems) ⟨by decide, by intro b hb; cases hb⟩
  intro b hb
  unfold producerRun at hb
  by_cases hflush : 0 < payloadLen
      (producerLoop u bid f sched 0 initialProducerState elems).batch ∧
      ((producerLoop u bid f sched 0 initialProducerState elems).stopped ||
        sched elems.length) = false
  · rw [if_pos hflush] at hb
    rcases List.mem_append.mp hb with hb | hb
    · exact hinv.2 b hb
    · rw [List.mem_singleton.mp hb]
      have := hinv.1
      omega
  · rw [if_neg hflush] at hb
    exact hinv.2 b hb

/-- Closed instance of `C5_amended_batch_bound`: the trailing one-record
batch of a one-record input is within the bound. -/
theorem C5_amended_batch_bound_witness :
    payloadLen ⟨[stepRow], [], [], [], []⟩ ≤
      BATCH_SIZE - 1 + maxContribution 1 "b" noSrc [.record stepRec] :=
  C5_amended_batch_bound 1 "b" noSrc noCancel [.record stepRec]
    ⟨[stepRow], [], [], [], []⟩ (by with_unfolding_all decide)

/-- The producer loop over a concatenated input runs the first part, then the
second from the resulting state with the iteration index advanced. -/
theorem producerLoop_append (u : Nat) (bid : String)
    (f : Option String → Option String → Option Nat) (sched : Nat → Bool)
    (l1 l2 : List ParsedElem) :
    ∀ (i : Nat) (st : ProducerState),
      producerLoop u bid f sched i st (l1 ++ l2) =
        producerLoop u bid f sched (i + l1.length)
          (producerLoop u bid f sched i st l1) l2 := by
  induction l1 with
  | nil => intro i st; simp [producerLoop]
  | cons e rest ih =>
    intro i st
    simp only [List.cons_append, producerLoop, List.append_eq]
    rw [ih (i + 1)]
    have h : i + 1 + rest.length = i + (rest.length + 1) := by omega
    rw [List.length_cons, h]

/-- Running the loop over `k` copies of a record element that lands as row
`r`, from a state whose batch stays strictly under the cap throughout,
appends `k` copies of `r` to the batch and enqueues nothing. -/
theorem producerLoop_replicate_record (u : Nat) (bid : String)
    (f : Option String → Option String → Option Nat) (sched : Nat → Bool)
    (re : XmlRecordElem) (r : HealthRow)
    (hre : process_record_element re u bid (f re.sourceName re.sourceVersion) =
      some (.health r)) :
    ∀ (k i : Nat) (st : ProducerState), st.stopped = false →
      payloadLen st.batch + k < BATCH_SIZE →
      producerLoop u bid f sched i st (List.replicate k (.record re)) =
        { st with
          batch := { st.batch with
            health := st.batch.health ++ List.replicate k r },
          health_count := st.health_count + k,
          total_count := st.total_count + k } := by
  intro k
  induction k with
  | zero =>
    intro i st hstop hlen
    simp [producerLoop]
  | succ k ih =>
    intro i st hstop hlen
    rw [List.replicate_succ]
    simp only [producerLoop]
    have hstep : producerStep u bid f (sched i) st (.record re) =
        { st with
          batch := { st.batch with health := st.batch.health ++ [r] },
          health_count := st.health_count + 1,
          total_count := st.total_count + 1 } := by
      unfold producerStep
      rw [hstop]
      simp only [Bool.false_eq_true, if_false]
      simp only [applyElem]
      rw [hre]
      unfold flushCheck
      have hnf : ¬ (BATCH_SIZE ≤ payloadLen
          { st.batch with health := st.batch.health ++ [r] }) := by
        simp only [payloadLen, List.length_append, List.length_singleton]
        simp only [payloadLen] at hlen
        omega
      rw [if_neg hnf, hstop]
    rw [hstep, ih (i + 1)]
    · have e1 : st.health_count + 1 + k = st.health_count + (k + 1) := by omega
      have e2 : st.total_count + 1 + k = st.total_count + (k + 1) := by omega
      simp only [e1, e2, List.append_assoc, List.singleton_append,
        ← List.replicate_succ]
    · exact hstop
    · simp only [payloadLen, List.length_append, List.length_singleton]
      simp only [payloadLen] at hlen
      omega

/-- A workout element that lands with a parseable start and pushes the batch
to the cap causes the batch, including the workout's route points, to be
enqueued whole and replaced by a fresh one. -/
theorem producerStep_workout_flush (u : Nat) (bid : String)
    (f : Option String → Option String → Option Nat) (cancel : Bool)
    (st : ProducerState) (we : XmlWorkoutElem)
    (hstop : st.stopped = false)
    (hT : (process_workout_element we u bid
      (f we.sourceName we.sourceVersion)).1.time ≠ none)
    (hfull : BATCH_SIZE ≤ payloadLen st.batch + 1 +
      (process_workout_element we u bid (f we.sourceName we.sourceVersion)).2.length)
    (hcan : cancel = false) :
    producerStep u bid f cancel st (.workout we) =
      { st with
        batch := emptyBatch,
        total_count := st.total_count + 1,
        workout_count := st.workout_count + 1,
        route_point_count := st.route_point_count +
          (process_workout_element we u bid (f we.sourceName we.sourceVersion)).2.length,
        enqueued := st.enqueued ++
          [{ st.batch with
              workouts := st.batch.workouts ++
                [(process_workout_element we u bid (f we.sourceName we.sourceVersion)).1],
              route_points := st.batch.route_points ++
                (process_workout_element we u bid (f we.sourceName we.sourceVersion)).2 }] } := by
  unfold producerStep
  rw [hstop]
  simp only [Bool.false_eq_true, if_false]
  simp only [applyElem]
  rw [if_neg hT]
  unfold flushCheck
  rw [if_pos (by
    simp only [payloadLen, List.length_append, List.length_singleton]
    simp only [payloadLen] at hfull
    omega)]
  rw [hcan]
  simp only [Bool.false_eq_true, if_false]
  rw [hstop]

/-- `payloadLen` of an explicitly assembled batch is the sum of its
sub-list lengths. -/
theorem payload_decomp (h : List HealthRow) (c : List CategoryRow)
    (w : List WorkoutRow) (r : List RoutePointRow) (a : List ActivityRow) :
    payloadLen ⟨h, c, w, r, a⟩ =
      h.length + c.length + w.length + r.length + a.length := rfl

theorem producerRun_enqueued_mem (u : Nat) (bid : String)
    (f : Option String → Option String → Option Nat) (sched : Nat → Bool)
    (elems : List ParsedElem) (b : BatchPayload)
    (hb : b ∈ (producerLoop u bid f sched 0 initialProducerState elems).enqueued) :
    b ∈ (producerRun u bid f sched elems).enqueued := by
  unfold producerRun
  by_cases hc : 0 < payloadLen
      (producerLoop u bid f sched 0 initialProducerState elems).batch ∧
      ((producerLoop u bid f sched 0 initialProducerState elems).stopped ||
        sched elems.length) = false
  · rw [if_pos hc]
    exact List.mem_append_left _ hb
  · rw [if_neg hc]
    exact hb

/-- A workout element arriving when the batch already holds `n` rows with
`BATCH_SIZE < n + 1 + L` (`L` its route points) makes the step enqueue a
batch strictly larger than `BATCH_SIZE`. -/
theorem flush_gives_big (u : Nat) (bid : String)
    (f : Option String → Option String → Option Nat) (cancel : Bool)
    (st : ProducerState) (we : XmlWorkoutElem)
    (hstop : st.stopped = false)
    (hT : (process_workout_element we u bid
      (f we.sourceName we.sourceVersion)).1.time ≠ none)
    (hcan : cancel = false) (n L : Nat)
    (hn : payloadLen st.batch = n)
    (hL : (process_workout_element we u bid
      (f we.sourceName we.sourceVersion)).2.length = L)
    (hbig : BATCH_SIZE < n + 1 + L) :
    ∃ b ∈ (producerStep u bid f cancel st (.workout we)).enqueued,
      BATCH_SIZE < payloadLen b := by
  rw [producerStep_workout_flush u bid f cancel st we hstop hT
    (by rw [hn, hL]; exact Nat.le_of_lt hbig) hcan]
  refine ⟨_, List.mem_append_right _ (List.mem_singleton_self _), ?_⟩
  simp only [payloadLen, List.length_append, List.length_singleton]
  simp only [payloadLen] at hn
  rw [hL]
  omega

/-- The claim's flat 25,000 cap for C5 fails: on an input of 24,999 landed
records followed by a workout carrying two route points, the producer
enqueues a batch of 25,002 records (the flush check runs only after the
whole element, workout plus route points, has been appended). -/
theorem C5_counterexample :
    ∃ b ∈ (producerRun 1 "b" noSrc noCancel bigInput).enqueued,
      BATCH_SIZE < payloadLen b := by
  have hre : process_record_element stepRec 1 "b"
      (noSrc stepRec.sourceName stepRec.sourceVersion) =
      some (.health stepRow) := by
    with_unfolding_all decide
  have hlen2 : (process_workout_element bigWorkout 1 "b"
      (noSrc bigWorkout.sourceName bigWorkout.sourceVersion)).2.length = 2 := by
    with_unfolding_all decide
  have hh : initialProducerState.batch.health.length = 0 := rfl
  have hcgy : initialProducerState.batch.category.length = 0 := rfl
  have hwk : initialProducerState.batch.workouts.length = 0 := rfl
  have hrp : initialProducerState.batch.route_points.length = 0 := rfl
  have hac : initialProducerState.batch.activity.length = 0 := rfl
  have hloopmem : ∃ b ∈ (producerLoop 1 "b" noSrc noCancel 0
      initialProducerState bigInput).enqueued, BATCH_SIZE < payloadLen b := by
    unfold bigInput
    rw [producerLoop_append]
    rw [producerLoop_replicate_record 1 "b" noSrc noCancel stepRec stepRow hre
      24999 0 initialProducerState rfl (by decide)]
    simp only [producerLoop]
    refine flush_gives_big 1 "b" noSrc _ _ bigWorkout rfl
      (by with_unfolding_all decide) rfl 24999 2 ?_ hlen2 (by decide)
    dsimp only
    rw [payload_decomp]
    simp only [List.length_append, List.length_replicate]
    rw [hh, hcgy, hwk, hrp, hac]
  obtain ⟨b, hb, hP⟩ := hloopmem
  exact ⟨b, producerRun_enqueued_mem 1 "b" noSrc noCancel bigInput b hb, hP⟩

end Health
